import Mathlib

/-
Verification of the octave-llms binding layer.

This file gives a shallow embedding of the two compiled Octave extension
functions of the repository:

  * `__ollama__` (src/src/__ollama__.cc) - argument parsing, parameter
    validation and dispatch to the external ollama-hpp client library, and
  * `fig2base64` (src/src/fig2base64.cc) - conversion of a figure pixel
    snapshot into a base64-encoded PNG string.

The external ollama-hpp client, the fpng PNG encoder, the Base64 encoder and
the Octave graphics toolkit are outside the repository; they are modelled as
an explicit environment (`Env`, `FigEnv`) of oracle functions whose calls can
either return a value or throw an exception (`ExtRes`).  The Octave host's
dynamic value system is modelled by `OctValue`; host conversion errors
(e.g. `string_value ()` on a non-char value) are modelled as Octave errors.
Numeric content of double scalars and of option-struct fields is never
inspected by the code under verification, so it is carried opaquely.
Single-quote characters occurring inside the C++ error message literals are
omitted from the embedded message strings.
-/

namespace OllamaSpec

/-- Octave dynamic values, restricted to the shapes the binding inspects:
character row vectors, double scalars, non-scalar double arrays, cell
arrays (as a list of rows), struct arrays (dimensions plus field list) and
logical scalars. -/
inductive OctValue where
  | str (s : String)
  | dbl (x : Int)
  | dblMat (r c : Nat)
  | cellV (rows : List (List OctValue))
  | structV (r c : Nat) (fields : List (String × OctValue))
  | boolV (b : Bool)

/-- Octave `is_string`: true exactly for char arrays. -/
def OctValue.isString : OctValue → Bool
  | .str _ => true
  | _ => false

/-- Octave `string_value` for char vectors (meaningful only when `isString`). -/
def OctValue.strVal : OctValue → String
  | .str s => s
  | _ => ""

/-- Number of rows of a cell array given as a list of rows. -/
def cellRowsN (rows : List (List OctValue)) : Nat := rows.length

/-- Number of columns of a cell array given as a list of rows. -/
def cellColsN (rows : List (List OctValue)) : Nat :=
  match rows with
  | [] => 0
  | r :: _ => r.length

/-- Total number of elements of a cell array. -/
def cellNumel (rows : List (List OctValue)) : Nat :=
  (rows.map List.length).sum

/-- Column-major linear indexing into a cell array (Octave `c(k)`). -/
def cellLin (rows : List (List OctValue)) (k : Nat) : Option OctValue :=
  if rows.length = 0 then none
  else (rows.get? (k % rows.length)).bind (fun r => r.get? (k / rows.length))

/-- The elements of a cell array in column-major linear order. -/
def cellLinear (rows : List (List OctValue)) : List OctValue :=
  (List.range (cellNumel rows)).filterMap (cellLin rows)

/-- Octave `isempty`: a value is empty when one of its dimensions is zero. -/
def OctValue.isempty : OctValue → Bool
  | .str s => s.length == 0
  | .dbl _ => false
  | .dblMat r c => r == 0 || c == 0
  | .cellV rows => cellRowsN rows == 0 || cellColsN rows == 0
  | .structV r c _ => r == 0 || c == 0
  | .boolV _ => false

/-- Octave `iscell`. -/
def OctValue.iscell : OctValue → Bool
  | .cellV _ => true
  | _ => false

/-- Octave `iscellstr`: a cell array all of whose elements are char arrays. -/
def OctValue.iscellstr : OctValue → Bool
  | .cellV rows => rows.all (fun r => r.all OctValue.isString)
  | _ => false

/-- Octave `isstruct`. -/
def OctValue.isstruct : OctValue → Bool
  | .structV _ _ _ => true
  | _ => false

/-- Octave `is_scalar_type`. -/
def OctValue.isScalarType : OctValue → Bool
  | .str s => s.length == 1
  | .dbl _ => true
  | .dblMat r c => r == 1 && c == 1
  | .cellV rows => cellNumel rows == 1
  | .structV r c _ => r == 1 && c == 1
  | .boolV _ => true

/-- Octave `is_double_type`. -/
def OctValue.isDoubleType : OctValue → Bool
  | .dbl _ => true
  | .dblMat _ _ => true
  | _ => false

/-- Octave `numel` of a value (cells are the only case the binding queries). -/
def OctValue.numelV : OctValue → Nat
  | .str s => s.length
  | .dbl _ => 1
  | .dblMat r c => r * c
  | .cellV rows => cellNumel rows
  | .structV r c _ => r * c
  | .boolV _ => 1

/-- The rows of a cell array value (empty for non-cells). -/
def OctValue.cellRows : OctValue → List (List OctValue)
  | .cellV rows => rows
  | _ => []

/-- An `ollama::image`, determined by its construction source
(`from_file` or `from_base64_string`); the external constructors are
abstracted as tags. -/
inductive Image where
  | fromFile (s : String)
  | fromB64 (s : String)
deriving DecidableEq

/-- An `ollama::message`: role, content and attached images. -/
structure Msg where
  role : String
  content : String
  imgs : List Image
deriving DecidableEq

/-- Result of a call into the external ollama-hpp library: a value, or a
thrown `ollama::exception` carrying a message. -/
inductive ExtRes (α : Type) where
  | ok (a : α)
  | exn (msg : String)
deriving DecidableEq

/-- Events recording the calls `__ollama__` issues into the external
ollama-hpp library during its dispatch phase. -/
inductive ExtCall where
  | getVersion
  | loadModel (m : String)
  | pullModel (m : String)
  | copyModel (src tgt : String)
  | deleteModel (m : String)
  | unloadModel (m : String)
  | listModels
  | listModelJson
  | listRunningModels
  | runningModelJson
  | showModelInfo (m : String)
  | generate (model pr : String)
  | chat (model : String)
deriving DecidableEq

/-- The first output `retval(0)` of `__ollama__`: possibly never assigned,
or a logical scalar, a char vector, or a cellstr column. -/
inductive Out0 where
  | unassigned
  | b (x : Bool)
  | s (x : String)
  | cells (xs : List String)
deriving DecidableEq

/-- Overall outcome of a `__ollama__` invocation: a normal return with the
two outputs, an Octave `error ()`, or a C++ exception that escaped the
function uncaught. -/
inductive Outcome where
  | ret (o0 : Out0) (o1 : Bool)
  | octError (msg : String)
  | uncaught (msg : String)
deriving DecidableEq

/-- The external world seen by `__ollama__`: the ollama-hpp client entry
points, as oracle functions. -/
structure Env where
  is_running : String → Bool
  get_version : String
  load_model : String → ExtRes Bool
  pull_model : String → ExtRes Bool
  copy_model : String → String → ExtRes Bool
  delete_model : String → ExtRes Bool
  unload_model : String → ExtRes Bool
  list_models : ExtRes (List String)
  list_model_json : ExtRes String
  list_running_models : ExtRes (List String)
  running_model_json : ExtRes String
  show_model_info : String → ExtRes String
  generate : String → String → String → String → List (String × OctValue) → List Image → ExtRes String
  chat : String → List Msg → String → String → List (String × OctValue) → ExtRes String

/-- Local variables of `__ollama__` after (a prefix of) the parse loop. -/
structure PState where
  url : String
  running : Bool
  model : String
  prompt : String
  has_prompt : Bool
  sysmsg : String
  think : String
  imgs : List Image
  has_images : Bool
  opts : List (String × OctValue)
  msgs : List Msg
  has_messages : Bool
  query_status : Bool
  query_version : Bool
  source : String
  target : String
  do_loadModel : Bool
  do_pullModel : Bool
  do_copyModel : Bool
  do_deleteModel : Bool
  do_unloadModel : Bool
  modelInfoName : String
  do_modelInfo : Bool
  do_listModels : Bool
  do_listRunningModels : Bool
  return_cellstr : Bool

/-- The variable initialisation at the top of `__ollama__`. -/
def initState (url0 : String) (running0 : Bool) : PState :=
  { url := url0, running := running0, model := "", prompt := "",
    has_prompt := false, sysmsg := "", think := "false", imgs := [],
    has_images := false, opts := [], msgs := [], has_messages := false,
    query_status := false, query_version := false, source := "", target := "",
    do_loadModel := false, do_pullModel := false, do_copyModel := false,
    do_deleteModel := false, do_unloadModel := false, modelInfoName := "",
    do_modelInfo := false, do_listModels := false,
    do_listRunningModels := false, return_cellstr := false }

/-- Generic message for a host value-conversion error (`string_value`,
`cell_value` or cell indexing on an unsuitable value raises an Octave
error whose exact text comes from the host, not from this repository). -/
def convErr : String := "octave: invalid value conversion"

/-- Inner loop of the `message` handler: scan the N-by-2 image cell of one
message row, collecting images whose first column is `imageFile` or
`imageBase64` and silently skipping other rows.  `none` models a host
conversion error. -/
def parseImgRows : List (List OctValue) → Option (List Image)
  | [] => some []
  | row :: rest =>
    match row.get? 0 with
    | none => none
    | some tag =>
      if ! tag.isString then none
      else if tag.strVal = "imageFile" then
        match row.get? 1 with
        | none => none
        | some content =>
          if ! content.isString then none
          else (parseImgRows rest).map (fun l => Image.fromFile content.strVal :: l)
      else if tag.strVal = "imageBase64" then
        match row.get? 1 with
        | none => none
        | some content =>
          if ! content.isString then none
          else (parseImgRows rest).map (fun l => Image.fromB64 content.strVal :: l)
      else parseImgRows rest

/-- Outer loop of the `message` handler: each row of the N-by-3 message cell
yields a user message (with its images) and, when the third column holds a
non-empty assistant response, an assistant message. -/
def parseMsgRows : List (List OctValue) → Except String (List Msg)
  | [] => .ok []
  | row :: rest =>
    match row.get? 0 with
    | none => .error convErr
    | some u =>
      if ! u.isString then .error convErr
      else
        match row.get? 1 with
        | none => .error convErr
        | some c1 =>
          if ! (c1.iscell && decide ((match c1 with
              | .cellV rws => cellColsN rws
              | _ => 0) = 2)) then
            .error "__ollama__: second column in messages name must be a 2-column cell array."
          else
            match c1 with
            | .cellV imgRows =>
              match parseImgRows imgRows with
              | none => .error convErr
              | some imgsHere =>
                match row.get? 2 with
                | none => .error convErr
                | some c2 =>
                  let assistantRes : Except String String :=
                    if c2.isString then .ok c2.strVal
                    else
                      match c2 with
                      | .cellV rws =>
                        match cellLin rws 1 with
                        | none => .error convErr
                        | some rv =>
                          if rv.isString then .ok rv.strVal else .error convErr
                      | _ => .error convErr
                  match assistantRes with
                  | .error e => .error e
                  | .ok assistant =>
                    match parseMsgRows rest with
                    | .error e => .error e
                    | .ok tailMsgs =>
                      .ok (Msg.mk "user" u.strVal imgsHere ::
                           ((if assistant ≠ "" then [Msg.mk "assistant" assistant []] else []) ++ tailMsgs))
            | _ => .error convErr

/-- The twenty option-struct field names, in the order the source tests them. -/
def optFieldNames : List String :=
  ["num_keep", "seed", "num_predict", "top_k", "top_p", "min_p", "typical_p",
   "repeat_last_n", "temperature", "repeat_penalty", "presence_penalty",
   "frequency_penalty", "penalize_newline", "numa", "num_ctx", "num_batch",
   "num_gpu", "main_gpu", "use_mmap", "num_thread"]

/-- JSON-map style assignment `options[k] = v`. -/
def setOpt (m : List (String × OctValue)) (k : String) (v : OctValue) :
    List (String × OctValue) :=
  if m.any (fun p => p.1 = k) then
    m.map (fun p => if p.1 = k then (k, v) else p)
  else m ++ [(k, v)]

/-- The `options` handler body: copy every recognised field present in the
scalar struct into the options map (field contents carried opaquely). -/
def applyOpts (fields : List (String × OctValue))
    (m : List (String × OctValue)) : List (String × OctValue) :=
  optFieldNames.foldl (fun acc k =>
    match fields.find? (fun p => p.1 = k) with
    | some pv => setOpt acc k pv.2
    | none => acc) m

/-- Result of processing a prefix of the Name-Value pairs: an updated state,
an Octave error, or the early normal return taken by the `serverURL`
handler when the newly selected server is not running. -/
inductive PRes where
  | ok (s : PState)
  | err (msg : String)
  | early (o0 : Out0) (o1 : Bool)

/-- One iteration of the parse loop of `__ollama__` on a Name-Value pair:
a direct translation of the if/else chain of the source. -/
def parseStep (env : Env) (s : PState) (nv : OctValue × OctValue) : PRes :=
  if nv.1.isempty || nv.2.isempty then
    .err "__ollama__: input arguments cannot be empty."
  else if ! nv.1.isString then
    .err "__ollama__: parameter name must be a character vector."
  else
    if nv.1.strVal = "model" then
      if ! nv.2.isString then .err "__ollama__: model value must be a character vector."
      else .ok { s with model := nv.2.strVal }
    else if nv.1.strVal = "prompt" then
      if s.has_messages then .err "__ollama__: specify either prompt or message."
      else if ! nv.2.isString then .err "__ollama__: prompt value must be a character vector."
      else .ok { s with has_prompt := true, prompt := nv.2.strVal }
    else if nv.1.strVal = "serverURL" then
      if ! nv.2.isString then .err "__ollama__: serverURL value must be a character vector."
      else if ! env.is_running nv.2.strVal then .early (.b false) true
      else .ok { s with url := nv.2.strVal, running := true }
    else if nv.1.strVal = "readTimeout" then
      if ! nv.2.isScalarType || ! nv.2.isDoubleType then
        .err "__ollama__: readTimeout value must be a double scalar."
      else .ok s
    else if nv.1.strVal = "writeTimeout" then
      if ! nv.2.isScalarType || ! nv.2.isDoubleType then
        .err "__ollama__: writeTimeout value must be a double scalar."
      else .ok s
    else if nv.1.strVal = "Query" then
      if ! nv.2.isString then .err "__ollama__: Query value must be a character vector."
      else if nv.2.strVal = "status" then .ok { s with query_status := true }
      else if nv.2.strVal = "version" then .ok { s with query_version := true }
      else .err "__ollama__: invalid value for Query."
    else if nv.1.strVal = "loadModel" then
      if ! nv.2.isString then .err "__ollama__: loadModel value must be a character vector."
      else if s.do_pullModel || s.do_copyModel || s.do_deleteModel || s.do_unloadModel then
        .err "__ollama__: either load, pull, copy, delete, or unload a model."
      else .ok { s with source := nv.2.strVal, do_loadModel := true }
    else if nv.1.strVal = "pullModel" then
      if ! nv.2.isString then .err "__ollama__: pullModel value must be a character vector."
      else if s.do_loadModel || s.do_copyModel || s.do_deleteModel || s.do_unloadModel then
        .err "__ollama__: either load, pull, copy, delete, or unload a model."
      else .ok { s with source := nv.2.strVal, do_pullModel := true }
    else if nv.1.strVal = "copyModel" then
      if ! (nv.2.iscellstr && nv.2.numelV == 2) then
        .err "__ollama__: copyModel value must be a cellstring with two elements."
      else if s.do_loadModel || s.do_pullModel || s.do_deleteModel || s.do_unloadModel then
        .err "__ollama__: either load, pull, copy, delete, or unload a model."
      else
        match nv.2 with
        | .cellV rws =>
          match cellLin rws 0, cellLin rws 1 with
          | some sv, some tv =>
            .ok { s with source := sv.strVal, target := tv.strVal, do_copyModel := true }
          | _, _ => .err convErr
        | _ => .err convErr
    else if nv.1.strVal = "deleteModel" then
      if ! nv.2.isString then .err "__ollama__: deleteModel value must be a character vector."
      else if s.do_loadModel || s.do_pullModel || s.do_copyModel || s.do_unloadModel then
        .err "__ollama__: either load, pull, copy, delete, or unload a model."
      else .ok { s with source := nv.2.strVal, do_deleteModel := true }
    else if nv.1.strVal = "unloadModel" then
      if ! nv.2.isString then .err "__ollama__: loadModel value must be a character vector."
      else if s.do_loadModel || s.do_pullModel || s.do_copyModel || s.do_deleteModel then
        .err "__ollama__: either load, pull, copy, delete, or unload a model."
      else .ok { s with source := nv.2.strVal, do_unloadModel := true }
    else if nv.1.strVal = "modelInfo" then
      if ! nv.2.isString then .err "__ollama__: modelInfo value must be a character vector."
      else .ok { s with modelInfoName := nv.2.strVal, do_modelInfo := true }
    else if nv.1.strVal = "listModels" then
      if ! nv.2.isString then .err "__ollama__: listModels value must be a character vector."
      else if nv.2.strVal ≠ "cellstr" && nv.2.strVal ≠ "json" then
        .err "__ollama__: invalid value for listModels."
      else if s.do_listRunningModels then
        .err "__ollama__: specify either listModels or listRunningModels."
      else .ok { s with return_cellstr := s.return_cellstr || nv.2.strVal = "cellstr",
                        do_listModels := true }
    else if nv.1.strVal = "listRunningModels" then
      if ! nv.2.isString then .err "__ollama__: listRunningModels name must be a character vector."
      else if nv.2.strVal ≠ "cellstr" && nv.2.strVal ≠ "json" then
        .err "__ollama__: invalid value for listRunningModels."
      else if s.do_listModels then
        .err "__ollama__: specify either listModels or listRunningModels."
      else .ok { s with return_cellstr := s.return_cellstr || nv.2.strVal = "cellstr",
                        do_listRunningModels := true }
    else if nv.1.strVal = "imageFile" then
      if nv.2.isString then
        if s.has_images then .err "__ollama__: specify either imageFile or imageBase64."
        else .ok { s with imgs := [Image.fromFile nv.2.strVal], has_images := true }
      else if nv.2.iscellstr then
        if s.has_images then .err "__ollama__: specify either imageFile or imageBase64."
        else
          let names := cellLinear nv.2.cellRows
          .ok { s with imgs := s.imgs ++ names.map (fun f => Image.fromFile f.strVal),
                       has_images := true }
      else .err "__ollama__: imageFile name must be a character vector or a cell array of character vectors."
    else if nv.1.strVal = "imageBase64" then
      if nv.2.isString then
        if s.has_images then .err "__ollama__: specify either imageFile or imageBase64."
        else .ok { s with imgs := [Image.fromB64 nv.2.strVal], has_images := true }
      else if nv.2.iscellstr then
        if s.has_images then .err "__ollama__: specify either imageFile or imageBase64."
        else
          let names := cellLinear nv.2.cellRows
          .ok { s with imgs := s.imgs ++ names.map (fun f => Image.fromB64 f.strVal),
                       has_images := true }
      else .err "__ollama__: imageBase64 name must be a character vector or a cell array of character vectors."
    else if nv.1.strVal = "options" then
      match nv.2 with
      | .structV r c fields =>
        if r == 1 && c == 1 then .ok { s with opts := applyOpts fields s.opts }
        else .err convErr
      | _ => .err "__ollama__: options value must be a scalar structure."
    else if nv.1.strVal = "message" then
      if s.has_prompt then .err "__ollama__: specify either prompt or message."
      else
        match nv.2 with
        | .cellV rws =>
          if cellColsN rws ≠ 3 then
            .err "__ollama__: messages cell array must have 3 columns."
          else
            match parseMsgRows rws with
            | .error e => .err e
            | .ok ms => .ok { s with has_messages := true, msgs := s.msgs ++ ms }
        | _ => .err "__ollama__: messages name must be a cell array."
    else if nv.1.strVal = "systemMessage" then
      if ! nv.2.isString then .err "__ollama__: systemMessage must be a character vector."
      else .ok { s with sysmsg := if nv.2.strVal = "default" then "" else nv.2.strVal }
    else if nv.1.strVal = "think" then
      if ! nv.2.isString then .err "__ollama__: think value must be a character vector."
      else .ok { s with think := nv.2.strVal }
    else .ok s

/-- The whole parse loop: fold `parseStep` over the Name-Value pairs,
stopping at the first error or early return. -/
def parsePairs (env : Env) : PState → List (OctValue × OctValue) → PRes
  | s, [] => .ok s
  | s, p :: rest =>
    match parseStep env s p with
    | .ok s' => parsePairs env s' rest
    | .err e => .err e
    | .early o0 o1 => .early o0 o1

/-- Group the flat argument list into Name-Value pairs; `none` when the
length is odd. -/
def chunkPairs : List OctValue → Option (List (OctValue × OctValue))
  | [] => some []
  | [_] => none
  | a :: b :: rest => (chunkPairs rest).map (fun l => (a, b) :: l)

/-- The `modelInfo` availability loop: call `show_model_info` once per list
entry equal to the requested name; an exception thrown by a call is caught
(outside the loop), aborting the remaining iterations. -/
def infoLoop (env : Env) (name : String) :
    List String → Out0 → Bool → Outcome × List ExtCall
  | [], o0, o1 => (.ret o0 o1, [])
  | m :: rest, o0, o1 =>
    if m = name then
      match env.show_model_info name with
      | .ok j =>
        let r := infoLoop env name rest (.s j) false
        (r.1, .showModelInfo name :: r.2)
      | .exn e => (.ret (.s e) true, [.showModelInfo name])
    else infoLoop env name rest o0 o1

/-- The dispatch section of `__ollama__` (everything after the parse loop):
a direct translation of the chain of early-returning `if` blocks, recording
every call issued into the external library.  `running0` is the result of
the `is_running` probe taken at function entry, whose negation is the
latent value of `retval(1)`. -/
def dispatch (env : Env) (running0 : Bool) (s : PState) : Outcome × List ExtCall :=
  if ! s.running then (.ret (.b false) true, [])
  else if s.query_status then (.ret (.b true) false, [])
  else if s.query_version then (.ret (.s env.get_version) false, [.getVersion])
  else if s.do_loadModel then
    -- load_model is called outside any try/catch block
    match env.load_model s.source with
    | .ok b => (.ret (.b b) (! b), [.loadModel s.source])
    | .exn e => (.uncaught e, [.loadModel s.source])
  else if s.do_pullModel then
    match env.pull_model s.source with
    | .ok b => (.ret (.b b) false, [.pullModel s.source])
    | .exn e => (.ret (.s e) true, [.pullModel s.source])
  else if s.do_copyModel then
    match env.copy_model s.source s.target with
    | .ok b => (.ret (.b b) false, [.copyModel s.source s.target])
    | .exn e => (.ret (.s e) true, [.copyModel s.source s.target])
  else if s.do_deleteModel then
    match env.delete_model s.source with
    | .ok b => (.ret (.b b) false, [.deleteModel s.source])
    | .exn e => (.ret (.s e) true, [.deleteModel s.source])
  else if s.do_unloadModel then
    -- unload_model is called outside any try/catch block
    match env.unload_model s.source with
    | .ok b => (.ret (.b b) (! b), [.unloadModel s.source])
    | .exn e => (.uncaught e, [.unloadModel s.source])
  else if s.do_modelInfo then
    -- the availability check list_models is called outside the try block
    match env.list_models with
    | .exn e => (.uncaught e, [.listModels])
    | .ok models =>
      let r := infoLoop env s.modelInfoName models .unassigned (! running0)
      (r.1, .listModels :: r.2)
  else if s.do_listModels then
    if s.return_cellstr then
      match env.list_models with
      | .ok l => (.ret (.cells l) false, [.listModels])
      | .exn e => (.ret (.s e) true, [.listModels])
    else
      match env.list_model_json with
      | .ok j => (.ret (.s j) false, [.listModelJson])
      | .exn e => (.ret (.s e) true, [.listModelJson])
  else if s.do_listRunningModels then
    if s.return_cellstr then
      match env.list_running_models with
      | .ok l => (.ret (.cells l) false, [.listRunningModels])
      | .exn e => (.ret (.s e) true, [.listRunningModels])
    else
      match env.running_model_json with
      | .ok j => (.ret (.s j) false, [.runningModelJson])
      | .exn e => (.ret (.s e) true, [.runningModelJson])
  else if s.model = "" then
    (.octError "__ollama: model parameter is required.", [])
  else if ! s.has_prompt && ! s.has_messages then
    (.octError "__ollama: either prompt or messages parameter is required.", [])
  else if s.has_prompt then
    match env.generate s.model s.prompt s.think s.sysmsg s.opts s.imgs with
    | .ok t => (.ret (.s t) false, [.generate s.model s.prompt])
    | .exn e => (.ret (.s e) true, [.generate s.model s.prompt])
  else
    match env.chat s.model s.msgs s.think s.sysmsg s.opts with
    | .ok t => (.ret (.s t) false, [.chat s.model])
    | .exn e => (.ret (.s e) true, [.chat s.model])

/-- A full `__ollama__` invocation (with `nargout = 2`): entry probe of the
server, pairing check, parse loop, then dispatch.  Returns the outcome and
the list of external library calls issued by the dispatch phase. -/
def runOllama (env : Env) (url0 : String) (args : List OctValue) :
    Outcome × List ExtCall :=
  let running0 := env.is_running url0
  match chunkPairs args with
  | none => (.octError "__ollama__: input arguments must be in Name-Value pairs.", [])
  | some ps =>
    match parsePairs env (initState url0 running0) ps with
    | .err m => (.octError m, [])
    | .early o0 o1 => (.ret o0 o1, [])
    | .ok s => dispatch env running0 s

/-- The logical operations of `__ollama__`, one per early-returning block of
the dispatch section (the final inference block handles generate/chat). -/
inductive Op where
  | serverDown
  | qstatus
  | qversion
  | load
  | pull
  | copy
  | delete
  | unload
  | minfo
  | listM
  | listR
  | inference
deriving DecidableEq

/-- The operation selected by the dispatch section for a given parse state:
the same guard chain as `dispatch`, reduced to its choice of branch. -/
def selectedOp (s : PState) : Op :=
  if ! s.running then .serverDown
  else if s.query_status then .qstatus
  else if s.query_version then .qversion
  else if s.do_loadModel then .load
  else if s.do_pullModel then .pull
  else if s.do_copyModel then .copy
  else if s.do_deleteModel then .delete
  else if s.do_unloadModel then .unload
  else if s.do_modelInfo then .minfo
  else if s.do_listModels then .listM
  else if s.do_listRunningModels then .listR
  else .inference

/-- The guard of each dispatch block as a predicate on the parse state. -/
def opGuard (s : PState) : Op → Bool
  | .serverDown => ! s.running
  | .qstatus => s.query_status
  | .qversion => s.query_version
  | .load => s.do_loadModel
  | .pull => s.do_pullModel
  | .copy => s.do_copyModel
  | .delete => s.do_deleteModel
  | .unload => s.do_unloadModel
  | .minfo => s.do_modelInfo
  | .listM => s.do_listModels
  | .listR => s.do_listRunningModels
  | .inference => true

/-- The textual order of the dispatch blocks in the source. -/
def opPriority : List Op :=
  [.serverDown, .qstatus, .qversion, .load, .pull, .copy, .delete, .unload,
   .minfo, .listM, .listR, .inference]

/-- The body of a single dispatch block. -/
def execOp (env : Env) (running0 : Bool) (s : PState) : Op → Outcome × List ExtCall
  | .serverDown => (.ret (.b false) true, [])
  | .qstatus => (.ret (.b true) false, [])
  | .qversion => (.ret (.s env.get_version) false, [.getVersion])
  | .load =>
    match env.load_model s.source with
    | .ok b => (.ret (.b b) (! b), [.loadModel s.source])
    | .exn e => (.uncaught e, [.loadModel s.source])
  | .pull =>
    match env.pull_model s.source with
    | .ok b => (.ret (.b b) false, [.pullModel s.source])
    | .exn e => (.ret (.s e) true, [.pullModel s.source])
  | .copy =>
    match env.copy_model s.source s.target with
    | .ok b => (.ret (.b b) false, [.copyModel s.source s.target])
    | .exn e => (.ret (.s e) true, [.copyModel s.source s.target])
  | .delete =>
    match env.delete_model s.source with
    | .ok b => (.ret (.b b) false, [.deleteModel s.source])
    | .exn e => (.ret (.s e) true, [.deleteModel s.source])
  | .unload =>
    match env.unload_model s.source with
    | .ok b => (.ret (.b b) (! b), [.unloadModel s.source])
    | .exn e => (.uncaught e, [.unloadModel s.source])
  | .minfo =>
    match env.list_models with
    | .exn e => (.uncaught e, [.listModels])
    | .ok models =>
      let r := infoLoop env s.modelInfoName models .unassigned (! running0)
      (r.1, .listModels :: r.2)
  | .listM =>
    if s.return_cellstr then
      match env.list_models with
      | .ok l => (.ret (.cells l) false, [.listModels])
      | .exn e => (.ret (.s e) true, [.listModels])
    else
      match env.list_model_json with
      | .ok j => (.ret (.s j) false, [.listModelJson])
      | .exn e => (.ret (.s e) true, [.listModelJson])
  | .listR =>
    if s.return_cellstr then
      match env.list_running_models with
      | .ok l => (.ret (.cells l) false, [.listRunningModels])
      | .exn e => (.ret (.s e) true, [.listRunningModels])
    else
      match env.running_model_json with
      | .ok j => (.ret (.s j) false, [.runningModelJson])
      | .exn e => (.ret (.s e) true, [.runningModelJson])
  | .inference =>
    if s.model = "" then
      (.octError "__ollama: model parameter is required.", [])
    else if ! s.has_prompt && ! s.has_messages then
      (.octError "__ollama: either prompt or messages parameter is required.", [])
    else if s.has_prompt then
      match env.generate s.model s.prompt s.think s.sysmsg s.opts s.imgs with
      | .ok t => (.ret (.s t) false, [.generate s.model s.prompt])
      | .exn e => (.ret (.s e) true, [.generate s.model s.prompt])
    else
      match env.chat s.model s.msgs s.think s.sysmsg s.opts with
      | .ok t => (.ret (.s t) false, [.chat s.model])
      | .exn e => (.ret (.s e) true, [.chat s.model])

/-- The booleans the dispatch guards read, extracted from a parse state. -/
structure DFlags where
  running : Bool
  qs : Bool
  qv : Bool
  load : Bool
  pull : Bool
  copy : Bool
  del : Bool
  unload : Bool
  minfo : Bool
  listM : Bool
  listR : Bool
  hp : Bool
  hm : Bool
deriving DecidableEq

/-- The dispatch-relevant flags of a parse state. -/
def dflags (s : PState) : DFlags :=
  ⟨s.running, s.query_status, s.query_version, s.do_loadModel, s.do_pullModel,
   s.do_copyModel, s.do_deleteModel, s.do_unloadModel, s.do_modelInfo,
   s.do_listModels, s.do_listRunningModels, s.has_prompt, s.has_messages⟩

/-- Componentwise disjunction of flags. -/
def dfOr (a b : DFlags) : DFlags :=
  ⟨a.running || b.running, a.qs || b.qs, a.qv || b.qv, a.load || b.load,
   a.pull || b.pull, a.copy || b.copy, a.del || b.del, a.unload || b.unload,
   a.minfo || b.minfo, a.listM || b.listM, a.listR || b.listR,
   a.hp || b.hp, a.hm || b.hm⟩

/-- The flags a single Name-Value pair turns on when the parse loop accepts
it: a function of the pair alone. -/
def trig (nv : OctValue × OctValue) : DFlags :=
  let nm := nv.1.strVal
  ⟨decide (nv.1.isString ∧ nm = "serverURL"),
   decide (nv.1.isString ∧ nm = "Query" ∧ nv.2.strVal = "status"),
   decide (nv.1.isString ∧ nm = "Query" ∧ nv.2.strVal = "version"),
   decide (nv.1.isString ∧ nm = "loadModel"),
   decide (nv.1.isString ∧ nm = "pullModel"),
   decide (nv.1.isString ∧ nm = "copyModel"),
   decide (nv.1.isString ∧ nm = "deleteModel"),
   decide (nv.1.isString ∧ nm = "unloadModel"),
   decide (nv.1.isString ∧ nm = "modelInfo"),
   decide (nv.1.isString ∧ nm = "listModels"),
   decide (nv.1.isString ∧ nm = "listRunningModels"),
   decide (nv.1.isString ∧ nm = "prompt"),
   decide (nv.1.isString ∧ nm = "message")⟩

/-- The flags a whole pair list turns on, as componentwise existentials
over the list: an order-insensitive description. -/
def trigAll (ps : List (OctValue × OctValue)) : DFlags :=
  ⟨ps.any (fun p => (trig p).running), ps.any (fun p => (trig p).qs),
   ps.any (fun p => (trig p).qv), ps.any (fun p => (trig p).load),
   ps.any (fun p => (trig p).pull), ps.any (fun p => (trig p).copy),
   ps.any (fun p => (trig p).del), ps.any (fun p => (trig p).unload),
   ps.any (fun p => (trig p).minfo), ps.any (fun p => (trig p).listM),
   ps.any (fun p => (trig p).listR), ps.any (fun p => (trig p).hp),
   ps.any (fun p => (trig p).hm)⟩

/-- The parameter names the parse loop recognises, in source order. -/
def recognizedNames : List String :=
  ["model", "prompt", "serverURL", "readTimeout", "writeTimeout", "Query",
   "loadModel", "pullModel", "copyModel", "deleteModel", "unloadModel",
   "modelInfo", "listModels", "listRunningModels", "imageFile", "imageBase64",
   "options", "message", "systemMessage", "think"]

/-- The five mutually exclusive model-lifecycle parameter names. -/
def lifecycleNames : List String :=
  ["loadModel", "pullModel", "copyModel", "deleteModel", "unloadModel"]

/-- Rebuild the flat argument list from a list of Name-Value pairs. -/
def flattenPairs (ps : List (OctValue × OctValue)) : List OctValue :=
  ps.flatMap (fun p => [p.1, p.2])

theorem chunk_flatten (ps : List (OctValue × OctValue)) :
    chunkPairs (flattenPairs ps) = some ps := by
  induction ps with
  | nil => rfl
  | cons p rest ih =>
    have hf : flattenPairs (p :: rest) = p.1 :: p.2 :: flattenPairs rest := by
      simp [flattenPairs]
    rw [hf, chunkPairs, ih]
    rfl

set_option maxHeartbeats 1600000 in
theorem dispatch_eq_execOp (env : Env) (running0 : Bool) (s : PState) :
    dispatch env running0 s = execOp env running0 s (selectedOp s) := by
  unfold dispatch execOp selectedOp
  by_cases c1 : (!s.running) = true
  · rw [if_pos c1, if_pos c1]
  rw [if_neg c1, if_neg c1]
  by_cases c2 : s.query_status = true
  · rw [if_pos c2, if_pos c2]
  rw [if_neg c2, if_neg c2]
  by_cases c3 : s.query_version = true
  · rw [if_pos c3, if_pos c3]
  rw [if_neg c3, if_neg c3]
  by_cases c4 : s.do_loadModel = true
  · rw [if_pos c4, if_pos c4]
  rw [if_neg c4, if_neg c4]
  by_cases c5 : s.do_pullModel = true
  · rw [if_pos c5, if_pos c5]
  rw [if_neg c5, if_neg c5]
  by_cases c6 : s.do_copyModel = true
  · rw [if_pos c6, if_pos c6]
  rw [if_neg c6, if_neg c6]
  by_cases c7 : s.do_deleteModel = true
  · rw [if_pos c7, if_pos c7]
  rw [if_neg c7, if_neg c7]
  by_cases c8 : s.do_unloadModel = true
  · rw [if_pos c8, if_pos c8]
  rw [if_neg c8, if_neg c8]
  by_cases c9 : s.do_modelInfo = true
  · rw [if_pos c9, if_pos c9]
  rw [if_neg c9, if_neg c9]
  by_cases c10 : s.do_listModels = true
  · rw [if_pos c10, if_pos c10]
  rw [if_neg c10, if_neg c10]
  by_cases c11 : s.do_listRunningModels = true
  · rw [if_pos c11, if_pos c11]
  rw [if_neg c11, if_neg c11]

set_option maxHeartbeats 1600000 in
theorem selectedOp_eq_find (s : PState) :
    some (selectedOp s) = opPriority.find? (opGuard s) := by
  unfold selectedOp opPriority
  split_ifs <;> simp_all [List.find?, opGuard]

theorem infoLoop_not_mem (env : Env) (name : String) (l : List String)
    (o0 : Out0) (o1 : Bool) (h : name ∉ l) :
    infoLoop env name l o0 o1 = (.ret o0 o1, []) := by
  induction l generalizing o0 o1 with
  | nil => rfl
  | cons m rest ih =>
    simp only [List.mem_cons, not_or] at h
    rw [infoLoop, if_neg (fun hmn => h.1 hmn.symm)]
    exact ih o0 o1 h.2

theorem infoLoop_show_ok (env : Env) (name : String) (l : List String) (j : String)
    (hshow : env.show_model_info name = .ok j) (o0 : Out0) (o1 : Bool) :
    infoLoop env name l o0 o1 =
      (if l.count name = 0 then Outcome.ret o0 o1 else Outcome.ret (.s j) false,
       List.replicate (l.count name) (ExtCall.showModelInfo name)) := by
  induction l generalizing o0 o1 with
  | nil => simp [infoLoop]
  | cons m rest ih =>
    by_cases hm : m = name
    · subst hm
      rw [infoLoop, if_pos rfl, hshow]
      simp only [ih (.s j) false]
      simp [List.count_cons, List.replicate_succ]
    · rw [infoLoop, if_neg hm, ih o0 o1]
      simp [List.count_cons, hm]

theorem infoLoop_show_exn (env : Env) (name : String) (l : List String) (e : String)
    (hshow : env.show_model_info name = .exn e) (o0 : Out0) (o1 : Bool)
    (hmem : name ∈ l) :
    (infoLoop env name l o0 o1).1 = .ret (.s e) true := by
  induction l generalizing o0 o1 with
  | nil => cases hmem
  | cons m rest ih =>
    by_cases hm : m = name
    · subst hm; rw [infoLoop, if_pos rfl, hshow]
    · rw [infoLoop, if_neg hm]
      rcases List.mem_cons.mp hmem with h | h
      · exact absurd h.symm hm
      · exact ih o0 o1 h

theorem parsePairs_append (env : Env) (s : PState)
    (l1 l2 : List (OctValue × OctValue)) :
    parsePairs env s (l1 ++ l2) =
      match parsePairs env s l1 with
      | .ok s' => parsePairs env s' l2
      | .err e => .err e
      | .early o0 o1 => .early o0 o1 := by
  induction l1 generalizing s with
  | nil => simp [parsePairs]
  | cons p rest ih =>
    rw [List.cons_append, parsePairs, parsePairs]
    cases parseStep env s p <;> simp [ih]

theorem step_ok_wellformed (env : Env) (s : PState) (p : OctValue × OctValue)
    (s' : PState) (h : parseStep env s p = .ok s') :
    ¬ p.1.isempty = true ∧ ¬ p.2.isempty = true ∧ p.1.isString = true := by
  rw [parseStep] at h
  by_cases h1 : (p.1.isempty || p.2.isempty) = true
  · rw [if_pos h1] at h; exact absurd h (by simp)
  · rw [if_neg h1] at h
    by_cases h2 : (! p.1.isString) = true
    · rw [if_pos h2] at h; exact absurd h (by simp)
    · simp only [Bool.or_eq_true, not_or] at h1
      refine ⟨h1.1, h1.2, ?_⟩
      simpa using h2

theorem parse_ok_of_mem (env : Env) (s0 : PState) (ps : List (OctValue × OctValue))
    (s' : PState) (h : parsePairs env s0 ps = .ok s')
    (p : OctValue × OctValue) (hp : p ∈ ps) :
    ∃ t t', parseStep env t p = .ok t' := by
  induction ps generalizing s0 with
  | nil => cases hp
  | cons q rest ih =>
    rw [parsePairs] at h
    rcases List.mem_cons.mp hp with hh | hh
    · subst hh
      cases hs : parseStep env s0 p with
      | ok s1 => exact ⟨s0, s1, hs⟩
      | err e => rw [hs] at h; exact absurd h (by simp)
      | early o0 o1 => rw [hs] at h; exact absurd h (by simp)
    · cases hs : parseStep env s0 q with
      | ok s1 => rw [hs] at h; exact ih s1 h hh
      | err e => rw [hs] at h; exact absurd h (by simp)
      | early o0 o1 => rw [hs] at h; exact absurd h (by simp)

/-- The external world seen by `fig2base64`: the fpng PNG encoder (which can
fail) and the Base64 encoder, as oracle functions over byte lists. -/
structure FigEnv where
  fpngEncode : List Nat → Nat → Nat → Nat → Option (List Nat)
  b64Encode : List Nat → String

/-- A figure pixel snapshot as delivered by the graphics toolkit
(`get_pixels`): dimensions and a byte per (row, column, channel). -/
structure Snapshot where
  rows : Nat
  cols : Nat
  channels : Nat
  data : Nat → Nat → Nat → Nat

/-- Outcome of a `fig2base64` invocation on a valid figure handle. -/
inductive FigOutcome where
  | ret (base64 : String)
  | octError (msg : String)
deriving DecidableEq

/-- The pixel extraction loop of `fig2base64`: for each row, then each
column, the first three channel bytes are appended. -/
def figPixels (snap : Snapshot) : List Nat :=
  (List.range snap.rows).flatMap (fun r =>
    (List.range snap.cols).flatMap (fun c =>
      [snap.data r c 0, snap.data r c 1, snap.data r c 2]))

/-- The body of `fig2base64` after input validation: encode the extracted
pixels as a PNG with width = columns, height = rows and 3 channels, then
Base64-encode the PNG bytes; a failed PNG encoding raises an error. -/
def fig2base64 (env : FigEnv) (snap : Snapshot) : FigOutcome :=
  match env.fpngEncode (figPixels snap) snap.cols snap.rows 3 with
  | none => .octError "fig2base64: unable to convert image to PNG."
  | some png => .ret (env.b64Encode png)

/-- At most one of the five lifecycle request flags is set. -/
def lcExcl (s : PState) : Prop :=
  (s.do_loadModel && s.do_pullModel) = false ∧
  (s.do_loadModel && s.do_copyModel) = false ∧
  (s.do_loadModel && s.do_deleteModel) = false ∧
  (s.do_loadModel && s.do_unloadModel) = false ∧
  (s.do_pullModel && s.do_copyModel) = false ∧
  (s.do_pullModel && s.do_deleteModel) = false ∧
  (s.do_pullModel && s.do_unloadModel) = false ∧
  (s.do_copyModel && s.do_deleteModel) = false ∧
  (s.do_copyModel && s.do_unloadModel) = false ∧
  (s.do_deleteModel && s.do_unloadModel) = false

/-- Not both of `prompt` and `message` have been accepted. -/
def pmExcl (s : PState) : Prop :=
  (s.has_prompt && s.has_messages) = false

set_option maxHeartbeats 4000000 in
theorem step_flags (env : Env) (s : PState) (p : OctValue × OctValue) (s' : PState)
    (h : parseStep env s p = .ok s') :
    dflags s' = dfOr (dflags s) (trig p) := by
  rw [parseStep] at h
  by_cases b0 : (p.1.isempty || p.2.isempty) = true
  · rw [if_pos b0] at h; exact PRes.noConfusion h
  rw [if_neg b0] at h
  by_cases b1 : (! p.1.isString) = true
  · rw [if_pos b1] at h; exact PRes.noConfusion h
  rw [if_neg b1] at h
  by_cases n0 : p.1.strVal = "model"
  · rw [if_pos n0] at h
    repeat' split at h
    all_goals first
      | exact PRes.noConfusion h
      | (injection h with h; subst h; simp_all [dflags, dfOr, trig])
  rw [if_neg n0] at h
  by_cases n1 : p.1.strVal = "prompt"
  · rw [if_pos n1] at h
    repeat' split at h
    all_goals first
      | exact PRes.noConfusion h
      | (injection h with h; subst h; simp_all [dflags, dfOr, trig])
  rw [if_neg n1] at h
  by_cases n2 : p.1.strVal = "serverURL"
  · rw [if_pos n2] at h
    repeat' split at h
    all_goals first
      | exact PRes.noConfusion h
      | (injection h with h; subst h; simp_all [dflags, dfOr, trig])
  rw [if_neg n2] at h
  by_cases n3 : p.1.strVal = "readTimeout"
  · rw [if_pos n3] at h
    repeat' split at h
    all_goals first
      | exact PRes.noConfusion h
      | (injection h with h; subst h; simp_all [dflags, dfOr, trig])
  rw [if_neg n3] at h
  by_cases n4 : p.1.strVal = "writeTimeout"
  · rw [if_pos n4] at h
    repeat' split at h
    all_goals first
      | exact PRes.noConfusion h
      | (injection h with h; subst h; simp_all [dflags, dfOr, trig])
  rw [if_neg n4] at h
  by_cases n5 : p.1.strVal = "Query"
  · rw [if_pos n5] at h
    repeat' split at h
    all_goals first
      | exact PRes.noConfusion h
      | (injection h with h; subst h; simp_all [dflags, dfOr, trig])
  rw [if_neg n5] at h
  by_cases n6 : p.1.strVal = "loadModel"
  · rw [if_pos n6] at h
    repeat' split at h
    all_goals first
      | exact PRes.noConfusion h
      | (injection h with h; subst h; simp_all [dflags, dfOr, trig])
  rw [if_neg n6] at h
  by_cases n7 : p.1.strVal = "pullModel"
  · rw [if_pos n7] at h
    repeat' split at h
    all_goals first
      | exact PRes.noConfusion h
      | (injection h with h; subst h; simp_all [dflags, dfOr, trig])
  rw [if_neg n7] at h
  by_cases n8 : p.1.strVal = "copyModel"
  · rw [if_pos n8] at h
    repeat' split at h
    all_goals first
      | exact PRes.noConfusion h
      | (injection h with h; subst h; simp_all [dflags, dfOr, trig])
  rw [if_neg n8] at h
  by_cases n9 : p.1.strVal = "deleteModel"
  · rw [if_pos n9] at h
    repeat' split at h
    all_goals first
      | exact PRes.noConfusion h
      | (injection h with h; subst h; simp_all [dflags, dfOr, trig])
  rw [if_neg n9] at h
  by_cases n10 : p.1.strVal = "unloadModel"
  · rw [if_pos n10] at h
    repeat' split at h
    all_goals first
      | exact PRes.noConfusion h
      | (injection h with h; subst h; simp_all [dflags, dfOr, trig])
  rw [if_neg n10] at h
  by_cases n11 : p.1.strVal = "modelInfo"
  · rw [if_pos n11] at h
    repeat' split at h
    all_goals first
      | exact PRes.noConfusion h
      | (injection h with h; subst h; simp_all [dflags, dfOr, trig])
  rw [if_neg n11] at h
  by_cases n12 : p.1.strVal = "listModels"
  · rw [if_pos n12] at h
    repeat' split at h
    all_goals first
      | exact PRes.noConfusion h
      | (injection h with h; subst h; simp_all [dflags, dfOr, trig])
  rw [if_neg n12] at h
  by_cases n13 : p.1.strVal = "listRunningModels"
  · rw [if_pos n13] at h
    repeat' split at h
    all_goals first
      | exact PRes.noConfusion h
      | (injection h with h; subst h; simp_all [dflags, dfOr, trig])
  rw [if_neg n13] at h
  by_cases n14 : p.1.strVal = "imageFile"
  · rw [if_pos n14] at h
    repeat' split at h
    all_goals first
      | exact PRes.noConfusion h
      | (injection h with h; subst h; simp_all [dflags, dfOr, trig])
  rw [if_neg n14] at h
  by_cases n15 : p.1.strVal = "imageBase64"
  · rw [if_pos n15] at h
    repeat' split at h
    all_goals first
      | exact PRes.noConfusion h
      | (injection h with h; subst h; simp_all [dflags, dfOr, trig])
  rw [if_neg n15] at h
  by_cases n16 : p.1.strVal = "options"
  · rw [if_pos n16] at h
    repeat' split at h
    all_goals first
      | exact PRes.noConfusion h
      | (injection h with h; subst h; simp_all [dflags, dfOr, trig])
  rw [if_neg n16] at h
  by_cases n17 : p.1.strVal = "message"
  · rw [if_pos n17] at h
    repeat' split at h
    all_goals first
      | exact PRes.noConfusion h
      | (injection h with h; subst h; simp_all [dflags, dfOr, trig])
  rw [if_neg n17] at h
  by_cases n18 : p.1.strVal = "systemMessage"
  · rw [if_pos n18] at h
    repeat' split at h
    all_goals first
      | exact PRes.noConfusion h
      | (injection h with h; subst h; simp_all [dflags, dfOr, trig])
  rw [if_neg n18] at h
  by_cases n19 : p.1.strVal = "think"
  · rw [if_pos n19] at h
    repeat' split at h
    all_goals first
      | exact PRes.noConfusion h
      | (injection h with h; subst h; simp_all [dflags, dfOr, trig])
  rw [if_neg n19] at h
  injection h with h; subst h; simp_all [dflags, dfOr, trig]

set_option maxHeartbeats 4000000 in
theorem step_props (env : Env) (s : PState) (p : OctValue × OctValue) (s' : PState)
    (h : parseStep env s p = .ok s') :
    (lcExcl s → lcExcl s') ∧ (pmExcl s → pmExcl s') ∧
    (p.1.strVal = "model" → p.2.isString = true) ∧
    (p.1.strVal = "prompt" → p.2.isString = true) ∧
    (p.1.strVal = "serverURL" → p.2.isString = true) ∧
    (p.1.strVal = "Query" → p.2.isString = true) ∧
    (p.1.strVal = "loadModel" → p.2.isString = true) ∧
    (p.1.strVal = "pullModel" → p.2.isString = true) ∧
    (p.1.strVal = "deleteModel" → p.2.isString = true) ∧
    (p.1.strVal = "unloadModel" → p.2.isString = true) ∧
    (p.1.strVal = "modelInfo" → p.2.isString = true) ∧
    (p.1.strVal = "systemMessage" → p.2.isString = true) ∧
    (p.1.strVal = "think" → p.2.isString = true) ∧
    (p.1.strVal = "readTimeout" → p.2.isScalarType = true ∧ p.2.isDoubleType = true) ∧
    (p.1.strVal = "writeTimeout" → p.2.isScalarType = true ∧ p.2.isDoubleType = true) ∧
    (p.1.strVal = "copyModel" → p.2.iscellstr = true ∧ p.2.numelV = 2) ∧
    (p.1.strVal = "options" → p.2.isstruct = true ∧ p.2.isScalarType = true) ∧
    (p.1.strVal = "message" → p.2.iscell = true ∧ cellColsN p.2.cellRows = 3) := by
  rw [parseStep] at h
  by_cases b0 : (p.1.isempty || p.2.isempty) = true
  · rw [if_pos b0] at h; exact PRes.noConfusion h
  rw [if_neg b0] at h
  by_cases b1 : (! p.1.isString) = true
  · rw [if_pos b1] at h; exact PRes.noConfusion h
  rw [if_neg b1] at h
  by_cases n0 : p.1.strVal = "model"
  · rw [if_pos n0] at h
    repeat' split at h
    all_goals first
      | exact PRes.noConfusion h
      | (injection h with h; subst h; simp_all [lcExcl, pmExcl, OctValue.isstruct, OctValue.isScalarType, OctValue.iscell, OctValue.cellRows])
  rw [if_neg n0] at h
  by_cases n1 : p.1.strVal = "prompt"
  · rw [if_pos n1] at h
    repeat' split at h
    all_goals first
      | exact PRes.noConfusion h
      | (injection h with h; subst h; simp_all [lcExcl, pmExcl, OctValue.isstruct, OctValue.isScalarType, OctValue.iscell, OctValue.cellRows])
  rw [if_neg n1] at h
  by_cases n2 : p.1.strVal = "serverURL"
  · rw [if_pos n2] at h
    repeat' split at h
    all_goals first
      | exact PRes.noConfusion h
      | (injection h with h; subst h; simp_all [lcExcl, pmExcl, OctValue.isstruct, OctValue.isScalarType, OctValue.iscell, OctValue.cellRows])
  rw [if_neg n2] at h
  by_cases n3 : p.1.strVal = "readTimeout"
  · rw [if_pos n3] at h
    repeat' split at h
    all_goals first
      | exact PRes.noConfusion h
      | (injection h with h; subst h; simp_all [lcExcl, pmExcl, OctValue.isstruct, OctValue.isScalarType, OctValue.iscell, OctValue.cellRows])
  rw [if_neg n3] at h
  by_cases n4 : p.1.strVal = "writeTimeout"
  · rw [if_pos n4] at h
    repeat' split at h
    all_goals first
      | exact PRes.noConfusion h
      | (injection h with h; subst h; simp_all [lcExcl, pmExcl, OctValue.isstruct, OctValue.isScalarType, OctValue.iscell, OctValue.cellRows])
  rw [if_neg n4] at h
  by_cases n5 : p.1.strVal = "Query"
  · rw [if_pos n5] at h
    repeat' split at h
    all_goals first
      | exact PRes.noConfusion h
      | (injection h with h; subst h; simp_all [lcExcl, pmExcl, OctValue.isstruct, OctValue.isScalarType, OctValue.iscell, OctValue.cellRows])
  rw [if_neg n5] at h
  by_cases n6 : p.1.strVal = "loadModel"
  · rw [if_pos n6] at h
    repeat' split at h
    all_goals first
      | exact PRes.noConfusion h
      | (injection h with h; subst h; simp_all [lcExcl, pmExcl, OctValue.isstruct, OctValue.isScalarType, OctValue.iscell, OctValue.cellRows])
  rw [if_neg n6] at h
  by_cases n7 : p.1.strVal = "pullModel"
  · rw [if_pos n7] at h
    repeat' split at h
    all_goals first
      | exact PRes.noConfusion h
      | (injection h with h; subst h; simp_all [lcExcl, pmExcl, OctValue.isstruct, OctValue.isScalarType, OctValue.iscell, OctValue.cellRows])
  rw [if_neg n7] at h
  by_cases n8 : p.1.strVal = "copyModel"
  · rw [if_pos n8] at h
    repeat' split at h
    all_goals first
      | exact PRes.noConfusion h
      | (injection h with h; subst h; simp_all [lcExcl, pmExcl, OctValue.isstruct, OctValue.isScalarType, OctValue.iscell, OctValue.cellRows])
  rw [if_neg n8] at h
  by_cases n9 : p.1.strVal = "deleteModel"
  · rw [if_pos n9] at h
    repeat' split at h
    all_goals first
      | exact PRes.noConfusion h
      | (injection h with h; subst h; simp_all [lcExcl, pmExcl, OctValue.isstruct, OctValue.isScalarType, OctValue.iscell, OctValue.cellRows])
  rw [if_neg n9] at h
  by_cases n10 : p.1.strVal = "unloadModel"
  · rw [if_pos n10] at h
    repeat' split at h
    all_goals first
      | exact PRes.noConfusion h
      | (injection h with h; subst h; simp_all [lcExcl, pmExcl, OctValue.isstruct, OctValue.isScalarType, OctValue.iscell, OctValue.cellRows])
  rw [if_neg n10] at h
  by_cases n11 : p.1.strVal = "modelInfo"
  · rw [if_pos n11] at h
    repeat' split at h
    all_goals first
      | exact PRes.noConfusion h
      | (injection h with h; subst h; simp_all [lcExcl, pmExcl, OctValue.isstruct, OctValue.isScalarType, OctValue.iscell, OctValue.cellRows])
  rw [if_neg n11] at h
  by_cases n12 : p.1.strVal = "listModels"
  · rw [if_pos n12] at h
    repeat' split at h
    all_goals first
      | exact PRes.noConfusion h
      | (injection h with h; subst h; simp_all [lcExcl, pmExcl, OctValue.isstruct, OctValue.isScalarType, OctValue.iscell, OctValue.cellRows])
  rw [if_neg n12] at h
  by_cases n13 : p.1.strVal = "listRunningModels"
  · rw [if_pos n13] at h
    repeat' split at h
    all_goals first
      | exact PRes.noConfusion h
      | (injection h with h; subst h; simp_all [lcExcl, pmExcl, OctValue.isstruct, OctValue.isScalarType, OctValue.iscell, OctValue.cellRows])
  rw [if_neg n13] at h
  by_cases n14 : p.1.strVal = "imageFile"
  · rw [if_pos n14] at h
    repeat' split at h
    all_goals first
      | exact PRes.noConfusion h
      | (injection h with h; subst h; simp_all [lcExcl, pmExcl, OctValue.isstruct, OctValue.isScalarType, OctValue.iscell, OctValue.cellRows])
  rw [if_neg n14] at h
  by_cases n15 : p.1.strVal = "imageBase64"
  · rw [if_pos n15] at h
    repeat' split at h
    all_goals first
      | exact PRes.noConfusion h
      | (injection h with h; subst h; simp_all [lcExcl, pmExcl, OctValue.isstruct, OctValue.isScalarType, OctValue.iscell, OctValue.cellRows])
  rw [if_neg n15] at h
  by_cases n16 : p.1.strVal = "options"
  · rw [if_pos n16] at h
    repeat' split at h
    all_goals first
      | exact PRes.noConfusion h
      | (injection h with h; subst h; simp_all [lcExcl, pmExcl, OctValue.isstruct, OctValue.isScalarType, OctValue.iscell, OctValue.cellRows])
  rw [if_neg n16] at h
  by_cases n17 : p.1.strVal = "message"
  · rw [if_pos n17] at h
    repeat' split at h
    all_goals first
      | exact PRes.noConfusion h
      | (injection h with h; subst h; simp_all [lcExcl, pmExcl, OctValue.isstruct, OctValue.isScalarType, OctValue.iscell, OctValue.cellRows])
  rw [if_neg n17] at h
  by_cases n18 : p.1.strVal = "systemMessage"
  · rw [if_pos n18] at h
    repeat' split at h
    all_goals first
      | exact PRes.noConfusion h
      | (injection h with h; subst h; simp_all [lcExcl, pmExcl, OctValue.isstruct, OctValue.isScalarType, OctValue.iscell, OctValue.cellRows])
  rw [if_neg n18] at h
  by_cases n19 : p.1.strVal = "think"
  · rw [if_pos n19] at h
    repeat' split at h
    all_goals first
      | exact PRes.noConfusion h
      | (injection h with h; subst h; simp_all [lcExcl, pmExcl, OctValue.isstruct, OctValue.isScalarType, OctValue.iscell, OctValue.cellRows])
  rw [if_neg n19] at h
  injection h with h; subst h; simp_all [lcExcl, pmExcl, OctValue.isstruct, OctValue.isScalarType, OctValue.iscell, OctValue.cellRows]

set_option maxHeartbeats 4000000 in
theorem step_early_serverURL (env : Env) (s : PState) (p : OctValue × OctValue)
    (o0 : Out0) (o1 : Bool) (h : parseStep env s p = .early o0 o1) :
    p.1.isString = true ∧ p.1.strVal = "serverURL" ∧ p.2.isString = true ∧
    env.is_running p.2.strVal = false := by
  rw [parseStep] at h
  by_cases b0 : (p.1.isempty || p.2.isempty) = true
  · rw [if_pos b0] at h; exact PRes.noConfusion h
  rw [if_neg b0] at h
  by_cases b1 : (! p.1.isString) = true
  · rw [if_pos b1] at h; exact PRes.noConfusion h
  rw [if_neg b1] at h
  by_cases n0 : p.1.strVal = "model"
  · rw [if_pos n0] at h
    repeat' split at h
    all_goals first
      | exact PRes.noConfusion h
      | simp_all
  rw [if_neg n0] at h
  by_cases n1 : p.1.strVal = "prompt"
  · rw [if_pos n1] at h
    repeat' split at h
    all_goals first
      | exact PRes.noConfusion h
      | simp_all
  rw [if_neg n1] at h
  by_cases n2 : p.1.strVal = "serverURL"
  · rw [if_pos n2] at h
    repeat' split at h
    all_goals first
      | exact PRes.noConfusion h
      | simp_all
  rw [if_neg n2] at h
  by_cases n3 : p.1.strVal = "readTimeout"
  · rw [if_pos n3] at h
    repeat' split at h
    all_goals first
      | exact PRes.noConfusion h
      | simp_all
  rw [if_neg n3] at h
  by_cases n4 : p.1.strVal = "writeTimeout"
  · rw [if_pos n4] at h
    repeat' split at h
    all_goals first
      | exact PRes.noConfusion h
      | simp_all
  rw [if_neg n4] at h
  by_cases n5 : p.1.strVal = "Query"
  · rw [if_pos n5] at h
    repeat' split at h
    all_goals first
      | exact PRes.noConfusion h
      | simp_all
  rw [if_neg n5] at h
  by_cases n6 : p.1.strVal = "loadModel"
  · rw [if_pos n6] at h
    repeat' split at h
    all_goals first
      | exact PRes.noConfusion h
      | simp_all
  rw [if_neg n6] at h
  by_cases n7 : p.1.strVal = "pullModel"
  · rw [if_pos n7] at h
    repeat' split at h
    all_goals first
      | exact PRes.noConfusion h
      | simp_all
  rw [if_neg n7] at h
  by_cases n8 : p.1.strVal = "copyModel"
  · rw [if_pos n8] at h
    repeat' split at h
    all_goals first
      | exact PRes.noConfusion h
      | simp_all
  rw [if_neg n8] at h
  by_cases n9 : p.1.strVal = "deleteModel"
  · rw [if_pos n9] at h
    repeat' split at h
    all_goals first
      | exact PRes.noConfusion h
      | simp_all
  rw [if_neg n9] at h
  by_cases n10 : p.1.strVal = "unloadModel"
  · rw [if_pos n10] at h
    repeat' split at h
    all_goals first
      | exact PRes.noConfusion h
      | simp_all
  rw [if_neg n10] at h
  by_cases n11 : p.1.strVal = "modelInfo"
  · rw [if_pos n11] at h
    repeat' split at h
    all_goals first
      | exact PRes.noConfusion h
      | simp_all
  rw [if_neg n11] at h
  by_cases n12 : p.1.strVal = "listModels"
  · rw [if_pos n12] at h
    repeat' split at h
    all_goals first
      | exact PRes.noConfusion h
      | simp_all
  rw [if_neg n12] at h
  by_cases n13 : p.1.strVal = "listRunningModels"
  · rw [if_pos n13] at h
    repeat' split at h
    all_goals first
      | exact PRes.noConfusion h
      | simp_all
  rw [if_neg n13] at h
  by_cases n14 : p.1.strVal = "imageFile"
  · rw [if_pos n14] at h
    repeat' split at h
    all_goals first
      | exact PRes.noConfusion h
      | simp_all
  rw [if_neg n14] at h
  by_cases n15 : p.1.strVal = "imageBase64"
  · rw [if_pos n15] at h
    repeat' split at h
    all_goals first
      | exact PRes.noConfusion h
      | simp_all
  rw [if_neg n15] at h
  by_cases n16 : p.1.strVal = "options"
  · rw [if_pos n16] at h
    repeat' split at h
    all_goals first
      | exact PRes.noConfusion h
      | simp_all
  rw [if_neg n16] at h
  by_cases n17 : p.1.strVal = "message"
  · rw [if_pos n17] at h
    repeat' split at h
    all_goals first
      | exact PRes.noConfusion h
      | simp_all
  rw [if_neg n17] at h
  by_cases n18 : p.1.strVal = "systemMessage"
  · rw [if_pos n18] at h
    repeat' split at h
    all_goals first
      | exact PRes.noConfusion h
      | simp_all
  rw [if_neg n18] at h
  by_cases n19 : p.1.strVal = "think"
  · rw [if_pos n19] at h
    repeat' split at h
    all_goals first
      | exact PRes.noConfusion h
      | simp_all
  rw [if_neg n19] at h
  exact PRes.noConfusion h

/-- The all-false flag set. -/
def dfNone : DFlags :=
  ⟨false, false, false, false, false, false, false, false, false, false,
   false, false, false⟩

theorem dfOr_none (a : DFlags) : dfOr a dfNone = a := by
  cases a; simp [dfOr, dfNone]

theorem dfOr_assoc (a b c : DFlags) : dfOr (dfOr a b) c = dfOr a (dfOr b c) := by
  cases a; cases b; cases c; simp [dfOr, Bool.or_assoc]

theorem trigAll_nil : trigAll [] = dfNone := by
  simp [trigAll, dfNone]

theorem trigAll_cons (p : OctValue × OctValue) (ps : List (OctValue × OctValue)) :
    trigAll (p :: ps) = dfOr (trig p) (trigAll ps) := by
  simp [trigAll, dfOr, List.any_cons]

theorem parse_flags (env : Env) (s0 : PState) (ps : List (OctValue × OctValue))
    (s' : PState) (h : parsePairs env s0 ps = .ok s') :
    dflags s' = dfOr (dflags s0) (trigAll ps) := by
  induction ps generalizing s0 with
  | nil =>
    rw [parsePairs] at h
    injection h with h
    subst h
    rw [trigAll_nil, dfOr_none]
  | cons p rest ih =>
    rw [parsePairs] at h
    cases hs : parseStep env s0 p with
    | ok s1 =>
      rw [hs] at h
      rw [ih s1 h, step_flags env s0 p s1 hs, dfOr_assoc, trigAll_cons]
    | err e => rw [hs] at h; exact PRes.noConfusion h
    | early o0 o1 => rw [hs] at h; exact PRes.noConfusion h

theorem parse_lcExcl (env : Env) (s0 : PState) (ps : List (OctValue × OctValue))
    (s' : PState) (h : parsePairs env s0 ps = .ok s') (h0 : lcExcl s0) :
    lcExcl s' := by
  induction ps generalizing s0 with
  | nil => rw [parsePairs] at h; injection h with h; subst h; exact h0
  | cons p rest ih =>
    rw [parsePairs] at h
    cases hs : parseStep env s0 p with
    | ok s1 =>
      rw [hs] at h
      exact ih s1 h ((step_props env s0 p s1 hs).1 h0)
    | err e => rw [hs] at h; exact PRes.noConfusion h
    | early o0 o1 => rw [hs] at h; exact PRes.noConfusion h

theorem parse_pmExcl (env : Env) (s0 : PState) (ps : List (OctValue × OctValue))
    (s' : PState) (h : parsePairs env s0 ps = .ok s') (h0 : pmExcl s0) :
    pmExcl s' := by
  induction ps generalizing s0 with
  | nil => rw [parsePairs] at h; injection h with h; subst h; exact h0
  | cons p rest ih =>
    rw [parsePairs] at h
    cases hs : parseStep env s0 p with
    | ok s1 =>
      rw [hs] at h
      exact ih s1 h ((step_props env s0 p s1 hs).2.1 h0)
    | err e => rw [hs] at h; exact PRes.noConfusion h
    | early o0 o1 => rw [hs] at h; exact PRes.noConfusion h

theorem parse_early_has_serverURL (env : Env) (s0 : PState)
    (ps : List (OctValue × OctValue)) (o0 : Out0) (o1 : Bool)
    (h : parsePairs env s0 ps = .early o0 o1) :
    ∃ p ∈ ps, p.1.isString = true ∧ p.1.strVal = "serverURL" ∧
      p.2.isString = true ∧ env.is_running p.2.strVal = false := by
  induction ps generalizing s0 with
  | nil => rw [parsePairs] at h; exact PRes.noConfusion h
  | cons p rest ih =>
    rw [parsePairs] at h
    cases hs : parseStep env s0 p with
    | ok s1 =>
      rw [hs] at h
      obtain ⟨q, hq, hprops⟩ := ih s1 h
      exact ⟨q, List.mem_cons_of_mem p hq, hprops⟩
    | err e => rw [hs] at h; exact PRes.noConfusion h
    | early a b =>
      rw [hs] at h
      exact ⟨p, List.mem_cons_self p rest,
             step_early_serverURL env s0 p a b hs⟩

/-- A list with no pair that names a non-running server via `serverURL`
cannot make the parse loop early-return. -/
theorem parse_not_early (env : Env) (s0 : PState) (ps : List (OctValue × OctValue))
    (hs : ∀ p ∈ ps, p.1.strVal = "serverURL" → p.2.isString = true →
          env.is_running p.2.strVal = true)
    (o0 : Out0) (o1 : Bool) : parsePairs env s0 ps ≠ .early o0 o1 := by
  intro h
  obtain ⟨p, hp, _, hname, hvstr, hrun⟩ := parse_early_has_serverURL env s0 ps o0 o1 h
  rw [hs p hp hname hvstr] at hrun
  exact Bool.noConfusion hrun

theorem bool_any_perm {α : Type} (f : α → Bool) {l1 l2 : List α}
    (h : l1.Perm l2) : l1.any f = l2.any f := by
  induction h with
  | nil => rfl
  | cons x _ ih => simp [List.any_cons, ih]
  | swap x y l => simp [List.any_cons, ← Bool.or_assoc, Bool.or_comm]
  | trans _ _ ih1 ih2 => rw [ih1, ih2]

theorem trigAll_perm {ps1 ps2 : List (OctValue × OctValue)} (h : ps1.Perm ps2) :
    trigAll ps1 = trigAll ps2 := by
  unfold trigAll
  congr 1 <;> exact bool_any_perm _ h

/-- The operation selected by dispatch depends only on the dispatch flags. -/
theorem selectedOp_congr (s1 s2 : PState) (h : dflags s1 = dflags s2) :
    selectedOp s1 = selectedOp s2 := by
  have h1 := congrArg DFlags.running h
  have h2 := congrArg DFlags.qs h
  have h3 := congrArg DFlags.qv h
  have h4 := congrArg DFlags.load h
  have h5 := congrArg DFlags.pull h
  have h6 := congrArg DFlags.copy h
  have h7 := congrArg DFlags.del h
  have h8 := congrArg DFlags.unload h
  have h9 := congrArg DFlags.minfo h
  have h10 := congrArg DFlags.listM h
  have h11 := congrArg DFlags.listR h
  simp only [dflags] at h1 h2 h3 h4 h5 h6 h7 h8 h9 h10 h11
  unfold selectedOp
  rw [h1, h2, h3, h4, h5, h6, h7, h8, h9, h10, h11]

/-- A pair in a list turns on each trigger component of the whole list. -/
theorem trigAll_component_true (ps : List (OctValue × OctValue))
    (p : OctValue × OctValue) (hp : p ∈ ps) (g : DFlags → Bool)
    (hg : g (trig p) = true)
    (hdist : ∀ a b : DFlags, g (dfOr a b) = (g a || g b)) :
    g (trigAll ps) = true := by
  induction ps with
  | nil => cases hp
  | cons q rest ih =>
    rw [trigAll_cons, hdist]
    rcases List.mem_cons.mp hp with hh | hh
    · subst hh; rw [hg]; rfl
    · rw [ih hh]; simp

/-- A concrete test environment: every server except the one named `down` is
running, `load_model` and `pull_model` throw, every other call succeeds. -/
def envA : Env :=
  { is_running := fun u => u != "down"
    get_version := "0.11.4"
    load_model := fun _ => .exn "load exception"
    pull_model := fun _ => .exn "pull exception"
    copy_model := fun _ _ => .ok true
    delete_model := fun _ => .ok true
    unload_model := fun _ => .ok true
    list_models := .ok ["m1", "m2"]
    list_model_json := .ok "models json"
    list_running_models := .ok ["m1"]
    running_model_json := .ok "running json"
    show_model_info := fun m => .ok (String.append "info " m)
    generate := fun m p _ _ _ _ => .ok (String.append m p)
    chat := fun m _ _ _ _ => .ok (String.append "chat " m) }

/-- C1 counterexample: when `ollama::load_model` throws, `__ollama__` does
not catch the exception and does not return the message with the error flag;
the exception escapes the function (the `loadModel` block has no try/catch). -/
theorem C1_counterexample :
    runOllama envA "up" [.str "loadModel", .str "mistral"] =
      (.uncaught "load exception", [.loadModel "mistral"]) ∧
    (runOllama envA "up" [.str "loadModel", .str "mistral"]).1 ≠
      Outcome.ret (Out0.s "load exception") true := by
  constructor
  · rfl
  · decide

/-- C1 (amended): an exception thrown by the external call is caught and
returned as the message string with error flag `true` for the pull, copy,
delete, list-models, list-running-models, generate and chat operations, and
for the `show_model_info` call of the model-info operation; but the
`load_model` and `unload_model` calls, and the preliminary `list_models`
availability check of the model-info operation, sit outside every try/catch
block, so their exceptions escape `__ollama__` uncaught. -/
theorem C1_exceptions_amended (env : Env) (r0 : Bool) (s : PState) (e : String) :
    (selectedOp s = .pull → env.pull_model s.source = .exn e →
       dispatch env r0 s = (.ret (.s e) true, [.pullModel s.source])) ∧
    (selectedOp s = .copy → env.copy_model s.source s.target = .exn e →
       dispatch env r0 s = (.ret (.s e) true, [.copyModel s.source s.target])) ∧
    (selectedOp s = .delete → env.delete_model s.source = .exn e →
       dispatch env r0 s = (.ret (.s e) true, [.deleteModel s.source])) ∧
    (selectedOp s = .listM → s.return_cellstr = true → env.list_models = .exn e →
       dispatch env r0 s = (.ret (.s e) true, [.listModels])) ∧
    (selectedOp s = .listM → s.return_cellstr = false → env.list_model_json = .exn e →
       dispatch env r0 s = (.ret (.s e) true, [.listModelJson])) ∧
    (selectedOp s = .listR → s.return_cellstr = true → env.list_running_models = .exn e →
       dispatch env r0 s = (.ret (.s e) true, [.listRunningModels])) ∧
    (selectedOp s = .listR → s.return_cellstr = false → env.running_model_json = .exn e →
       dispatch env r0 s = (.ret (.s e) true, [.runningModelJson])) ∧
    (selectedOp s = .inference → s.model ≠ "" → s.has_prompt = true →
       env.generate s.model s.prompt s.think s.sysmsg s.opts s.imgs = .exn e →
       dispatch env r0 s = (.ret (.s e) true, [.generate s.model s.prompt])) ∧
    (selectedOp s = .inference → s.model ≠ "" → s.has_prompt = false →
       s.has_messages = true →
       env.chat s.model s.msgs s.think s.sysmsg s.opts = .exn e →
       dispatch env r0 s = (.ret (.s e) true, [.chat s.model])) ∧
    (selectedOp s = .minfo → ∀ l : List String, env.list_models = .ok l →
       s.modelInfoName ∈ l → env.show_model_info s.modelInfoName = .exn e →
       (dispatch env r0 s).1 = .ret (.s e) true) ∧
    (selectedOp s = .load → env.load_model s.source = .exn e →
       dispatch env r0 s = (.uncaught e, [.loadModel s.source])) ∧
    (selectedOp s = .unload → env.unload_model s.source = .exn e →
       dispatch env r0 s = (.uncaught e, [.unloadModel s.source])) ∧
    (selectedOp s = .minfo → env.list_models = .exn e →
       dispatch env r0 s = (.uncaught e, [.listModels])) := by
  refine ⟨?_, ?_, ?_, ?_, ?_, ?_, ?_, ?_, ?_, ?_, ?_, ?_, ?_⟩
  · intro hsel hx; rw [dispatch_eq_execOp, hsel]; simp [execOp, hx]
  · intro hsel hx; rw [dispatch_eq_execOp, hsel]; simp [execOp, hx]
  · intro hsel hx; rw [dispatch_eq_execOp, hsel]; simp [execOp, hx]
  · intro hsel hrc hx; rw [dispatch_eq_execOp, hsel]; simp [execOp, hrc, hx]
  · intro hsel hrc hx; rw [dispatch_eq_execOp, hsel]; simp [execOp, hrc, hx]
  · intro hsel hrc hx; rw [dispatch_eq_execOp, hsel]; simp [execOp, hrc, hx]
  · intro hsel hrc hx; rw [dispatch_eq_execOp, hsel]; simp [execOp, hrc, hx]
  · intro hsel hm hp hx; rw [dispatch_eq_execOp, hsel]; simp [execOp, hm, hp, hx]
  · intro hsel hm hp hmm hx; rw [dispatch_eq_execOp, hsel]
    simp [execOp, hm, hp, hmm, hx]
  · intro hsel l hl hmem hx; rw [dispatch_eq_execOp, hsel]
    simpa [execOp, hl] using
      infoLoop_show_exn env s.modelInfoName l e hx .unassigned (! r0) hmem
  · intro hsel hx; rw [dispatch_eq_execOp, hsel]; simp [execOp, hx]
  · intro hsel hx; rw [dispatch_eq_execOp, hsel]; simp [execOp, hx]
  · intro hsel hx; rw [dispatch_eq_execOp, hsel]; simp [execOp, hx]

/-- C1 witness: the amended theorem applied to a concrete pull failure. -/
theorem C1_witness :
    dispatch envA true { (initState "up" true) with source := "m", do_pullModel := true } =
      (.ret (.s "pull exception") true, [.pullModel "m"]) :=
  (C1_exceptions_amended envA true
    { (initState "up" true) with source := "m", do_pullModel := true }
    "pull exception").1 rfl rfl

/-- C3 counterexample: a `modelInfo` request for an available model issues two
calls into the external library (`list_models` for the availability check,
then `show_model_info`), not exactly one. -/
theorem C3_counterexample :
    runOllama envA "up" [.str "modelInfo", .str "m2"] =
      (.ret (.s "info m2") false, [.listModels, .showModelInfo "m2"]) ∧
    (runOllama envA "up" [.str "modelInfo", .str "m2"]).2.length ≠ 1 := by
  constructor
  · rfl
  · decide

/-- C3 (amended): each dispatched operation issues exactly one call into the
external library, except the status query (which issues none, reusing the
entry `is_running` probe) and the model-info operation (which first calls
`list_models` and then calls `show_model_info` once per matching entry of
the returned list). -/
theorem C3_one_call_amended (env : Env) (r0 : Bool) (s : PState) :
    (selectedOp s = .qstatus → (dispatch env r0 s).2 = []) ∧
    (selectedOp s = .qversion → (dispatch env r0 s).2.length = 1) ∧
    (selectedOp s = .load → (dispatch env r0 s).2.length = 1) ∧
    (selectedOp s = .pull → (dispatch env r0 s).2.length = 1) ∧
    (selectedOp s = .copy → (dispatch env r0 s).2.length = 1) ∧
    (selectedOp s = .delete → (dispatch env r0 s).2.length = 1) ∧
    (selectedOp s = .unload → (dispatch env r0 s).2.length = 1) ∧
    (selectedOp s = .listM → (dispatch env r0 s).2.length = 1) ∧
    (selectedOp s = .listR → (dispatch env r0 s).2.length = 1) ∧
    (selectedOp s = .inference → s.model ≠ "" →
       (s.has_prompt = true ∨ s.has_messages = true) →
       (dispatch env r0 s).2.length = 1) ∧
    (selectedOp s = .minfo → ∀ (l : List String) (j : String),
       env.list_models = .ok l → env.show_model_info s.modelInfoName = .ok j →
       (dispatch env r0 s).2 =
         .listModels ::
           List.replicate (l.count s.modelInfoName)
             (.showModelInfo s.modelInfoName)) := by
  refine ⟨?_, ?_, ?_, ?_, ?_, ?_, ?_, ?_, ?_, ?_, ?_⟩
  · intro hsel; rw [dispatch_eq_execOp, hsel]; simp [execOp]
  · intro hsel; rw [dispatch_eq_execOp, hsel]; simp [execOp]
  · intro hsel; rw [dispatch_eq_execOp, hsel]
    cases hx : env.load_model s.source <;> simp [execOp, hx]
  · intro hsel; rw [dispatch_eq_execOp, hsel]
    cases hx : env.pull_model s.source <;> simp [execOp, hx]
  · intro hsel; rw [dispatch_eq_execOp, hsel]
    cases hx : env.copy_model s.source s.target <;> simp [execOp, hx]
  · intro hsel; rw [dispatch_eq_execOp, hsel]
    cases hx : env.delete_model s.source <;> simp [execOp, hx]
  · intro hsel; rw [dispatch_eq_execOp, hsel]
    cases hx : env.unload_model s.source <;> simp [execOp, hx]
  · intro hsel; rw [dispatch_eq_execOp, hsel]
    cases hrc : s.return_cellstr
    · cases hx : env.list_model_json <;> simp [execOp, hrc, hx]
    · cases hx : env.list_models <;> simp [execOp, hrc, hx]
  · intro hsel; rw [dispatch_eq_execOp, hsel]
    cases hrc : s.return_cellstr
    · cases hx : env.running_model_json <;> simp [execOp, hrc, hx]
    · cases hx : env.list_running_models <;> simp [execOp, hrc, hx]
  · intro hsel hm hpm; rw [dispatch_eq_execOp, hsel]
    rcases hpm with hp | hmm
    · cases hx : env.generate s.model s.prompt s.think s.sysmsg s.opts s.imgs <;>
        simp [execOp, hm, hp, hx]
    · cases hp : s.has_prompt
      · cases hx : env.chat s.model s.msgs s.think s.sysmsg s.opts <;>
          simp [execOp, hm, hp, hmm, hx]
      · cases hx : env.generate s.model s.prompt s.think s.sysmsg s.opts s.imgs <;>
          simp [execOp, hm, hp, hmm, hx]
  · intro hsel l j hl hj; rw [dispatch_eq_execOp, hsel]
    simp only [execOp, hl]
    rw [infoLoop_show_ok env s.modelInfoName l j hj .unassigned (! r0)]

/-- C3 witness: the amended theorem applied to a concrete version query. -/
theorem C3_witness :
    (dispatch envA true { (initState "up" true) with query_version := true }).2.length = 1 :=
  (C3_one_call_amended envA true
    { (initState "up" true) with query_version := true }).2.1 rfl

/-- C9: the dispatch section executes exactly one operation, the first in
the fixed textual priority order whose flag holds (server-down, status,
version, load, pull, copy, delete, unload, model info, list models, list
running models, inference), and for permuted argument lists that both parse
successfully the selected operation is the same. -/
theorem C9_fixed_priority :
    (∀ s : PState, some (selectedOp s) = opPriority.find? (opGuard s)) ∧
    (∀ (env : Env) (r0 : Bool) (s : PState),
       dispatch env r0 s = execOp env r0 s (selectedOp s)) ∧
    (∀ (env : Env) (s0 : PState) (ps1 ps2 : List (OctValue × OctValue))
       (s1 s2 : PState), ps1.Perm ps2 →
       parsePairs env s0 ps1 = .ok s1 → parsePairs env s0 ps2 = .ok s2 →
       selectedOp s1 = selectedOp s2) := by
  refine ⟨selectedOp_eq_find, dispatch_eq_execOp, ?_⟩
  intro env s0 ps1 ps2 s1 s2 hperm h1 h2
  apply selectedOp_congr
  rw [parse_flags env s0 ps1 s1 h1, parse_flags env s0 ps2 s2 h2,
      trigAll_perm hperm]

/-- C9 witness: the permutation part applied to two concrete argument
orders selecting the same operation. -/
theorem C9_witness :
    selectedOp { (initState "up" true) with query_status := true, do_modelInfo := true, modelInfoName := "mm" } =
    selectedOp { (initState "up" true) with do_modelInfo := true, modelInfoName := "mm", query_status := true } :=
  C9_fixed_priority.2.2 envA (initState "up" true)
    [(.str "Query", .str "status"), (.str "modelInfo", .str "mm")]
    [(.str "modelInfo", .str "mm"), (.str "Query", .str "status")]
    _ _ (List.Perm.swap _ _ _) rfl rfl

/-- C10: with the server running, a `modelInfo` request naming a model absent
from the `list_models` result returns with the error flag `false` and the
first output never assigned: neither model information nor any error is
reported. -/
theorem C10_modelInfo_absent (env : Env) (url0 : String) (args : List OctValue)
    (ps : List (OctValue × OctValue)) (s : PState) (l : List String)
    (hc : chunkPairs args = some ps)
    (hrun : env.is_running url0 = true)
    (hp : parsePairs env (initState url0 true) ps = .ok s)
    (hop : selectedOp s = .minfo)
    (hl : env.list_models = .ok l)
    (habs : s.modelInfoName ∉ l) :
    runOllama env url0 args = (.ret .unassigned false, [.listModels]) := by
  unfold runOllama
  rw [hc]
  simp only [hrun, hp]
  rw [dispatch_eq_execOp, hop]
  simp only [execOp, hl]
  rw [infoLoop_not_mem env s.modelInfoName l .unassigned _ habs]
  rfl

/-- C10 witness: the theorem applied to a concrete absent model name. -/
theorem C10_witness :
    runOllama envA "up" [.str "modelInfo", .str "zz"] =
      (.ret .unassigned false, [.listModels]) :=
  C10_modelInfo_absent envA "up" [.str "modelInfo", .str "zz"]
    [(.str "modelInfo", .str "zz")]
    { (initState "up" true) with do_modelInfo := true, modelInfoName := "zz" }
    ["m1", "m2"] rfl rfl rfl rfl rfl (by decide)

theorem flatMap_length_const {α β : Type} (f : α → List β) (m : Nat)
    (hm : ∀ a, (f a).length = m) (l : List α) :
    (l.flatMap f).length = l.length * m := by
  induction l with
  | nil => simp
  | cons a t ih =>
    simp only [List.flatMap_cons, List.length_append, List.length_cons, ih, hm]
    rw [Nat.succ_mul]
    omega

theorem flatMap_get_const {α β : Type} (f : α → List β) (m : Nat)
    (hm : ∀ a, (f a).length = m) :
    ∀ (l : List α) (i j : Nat), j < m →
      (l.flatMap f).get? (i * m + j) = (l.get? i).bind (fun a => (f a).get? j) := by
  intro l
  induction l with
  | nil => intro i j _; simp
  | cons a t ih =>
    intro i j hj
    rw [List.flatMap_cons]
    cases i with
    | zero =>
      simp only [Nat.zero_mul, Nat.zero_add, List.get?_eq_getElem?]
      rw [List.getElem?_append_left (by rw [hm a]; exact hj)]
      simp
    | succ i =>
      have hidx : (i + 1) * m + j = (f a).length + (i * m + j) := by
        rw [hm a]; ring
      simp only [List.get?_eq_getElem?] at ih ⊢
      rw [hidx, List.getElem?_append_right (Nat.le_add_right _ _),
          Nat.add_sub_cancel_left, List.getElem?_cons_succ]
      exact ih i j hj

theorem figPixels_get (snap : Snapshot) (r c k : Nat)
    (hr : r < snap.rows) (hc : c < snap.cols) (hk : k < 3) :
    (figPixels snap).get? ((r * snap.cols + c) * 3 + k) =
      some (snap.data r c k) := by
  unfold figPixels
  have hrow : ∀ rr : Nat,
      ((List.range snap.cols).flatMap
        (fun cc => [snap.data rr cc 0, snap.data rr cc 1, snap.data rr cc 2])).length =
      snap.cols * 3 := by
    intro rr
    rw [flatMap_length_const
          (fun cc => [snap.data rr cc 0, snap.data rr cc 1, snap.data rr cc 2]) 3
          (fun _ => rfl), List.length_range]
  have hidx : (r * snap.cols + c) * 3 + k = r * (snap.cols * 3) + (c * 3 + k) := by
    ring
  rw [hidx,
      flatMap_get_const _ (snap.cols * 3) hrow _ r (c * 3 + k) (by omega)]
  rw [List.get?_eq_getElem?, List.getElem?_range hr]
  simp only [Option.some_bind]
  rw [flatMap_get_const
        (fun cc => [snap.data r cc 0, snap.data r cc 1, snap.data r cc 2]) 3
        (fun _ => rfl) _ c k hk]
  rw [List.get?_eq_getElem?, List.getElem?_range hc]
  simp only [Option.some_bind]
  rcases k with _ | _ | _ | k
  · rfl
  · rfl
  · rfl
  · omega

/-- C7: on a valid figure handle, `fig2base64` returns exactly the Base64
encoding of the PNG produced by fpng from the extracted pixel bytes, where
the byte at position (r*cols + c)*3 + k is channel k of the pixel at row r,
column c, the PNG is encoded with width = cols, height = rows and 3
channels, and a failed PNG encoding raises an error instead of returning. -/
theorem C7_fig2base64_base64_of_png (env : FigEnv) (snap : Snapshot) :
    (∀ png : List Nat,
       env.fpngEncode (figPixels snap) snap.cols snap.rows 3 = some png →
       fig2base64 env snap = .ret (env.b64Encode png)) ∧
    (env.fpngEncode (figPixels snap) snap.cols snap.rows 3 = none →
       fig2base64 env snap =
         .octError "fig2base64: unable to convert image to PNG.") ∧
    (∀ r c k : Nat, r < snap.rows → c < snap.cols → k < 3 →
       (figPixels snap).get? ((r * snap.cols + c) * 3 + k) =
         some (snap.data r c k)) ∧
    (figPixels snap).length = snap.rows * (snap.cols * 3) := by
  refine ⟨?_, ?_, figPixels_get snap, ?_⟩
  · intro png hok
    unfold fig2base64
    rw [hok]
  · intro hfail
    unfold fig2base64
    rw [hfail]
  · unfold figPixels
    rw [flatMap_length_const
          (fun r => (List.range snap.cols).flatMap
            (fun c => [snap.data r c 0, snap.data r c 1, snap.data r c 2]))
          (snap.cols * 3)
          (fun rr => by
            rw [flatMap_length_const
                  (fun c => [snap.data rr c 0, snap.data rr c 1, snap.data rr c 2]) 3
                  (fun _ => rfl), List.length_range]),
        List.length_range]

/-- A concrete snapshot and encoder pair for the C7 witness. -/
def snapW : Snapshot := ⟨2, 2, 3, fun r c k => r * 100 + c * 10 + k⟩

/-- A concrete figure environment whose PNG encoder succeeds, echoing its
input, and whose Base64 encoder returns a fixed string. -/
def figEnvW : FigEnv := ⟨fun px _ _ _ => some px, fun _ => "b64"⟩

/-- C7 witness: the theorem applied to the concrete snapshot. -/
theorem C7_witness :
    fig2base64 figEnvW snapW = .ret "b64" ∧
    (figPixels snapW).get? ((1 * 2 + 1) * 3 + 2) = some 112 :=
  ⟨(C7_fig2base64_base64_of_png figEnvW snapW).1 (figPixels snapW) rfl,
   (C7_fig2base64_base64_of_png figEnvW snapW).2.2.1 1 1 2 (by decide) (by decide)
     (by decide)⟩

theorem runOllama_flatten (env : Env) (url0 : String)
    (ps : List (OctValue × OctValue)) :
    runOllama env url0 (flattenPairs ps) =
      match parsePairs env (initState url0 (env.is_running url0)) ps with
      | .err m => (.octError m, [])
      | .early o0 o1 => (.ret o0 o1, [])
      | .ok s => dispatch env (env.is_running url0) s := by
  unfold runOllama
  rw [chunk_flatten]

theorem runOllama_parse (env : Env) (url0 : String) (args : List OctValue)
    (ps : List (OctValue × OctValue)) (hc : chunkPairs args = some ps) :
    runOllama env url0 args =
      match parsePairs env (initState url0 (env.is_running url0)) ps with
      | .err m => (.octError m, [])
      | .early o0 o1 => (.ret o0 o1, [])
      | .ok s => dispatch env (env.is_running url0) s := by
  unfold runOllama
  rw [hc]

theorem step_unrecognized (env : Env) (s : PState) (p : OctValue × OctValue)
    (hn : p.1.isString = true) (hne : p.1.isempty = false)
    (hve : p.2.isempty = false) (hr : p.1.strVal ∉ recognizedNames) :
    parseStep env s p = .ok s := by
  rw [parseStep]
  simp only [recognizedNames, List.mem_cons, List.not_mem_nil, or_false] at hr
  push_neg at hr
  obtain ⟨g1, g2, g3, g4, g5, g6, g7, g8, g9, g10, g11, g12, g13, g14, g15,
          g16, g17, g18, g19, g20⟩ := hr
  rw [if_neg (by simp [hne, hve]), if_neg (by simp [hn]),
      if_neg g1, if_neg g2, if_neg g3, if_neg g4, if_neg g5, if_neg g6,
      if_neg g7, if_neg g8, if_neg g9, if_neg g10, if_neg g11, if_neg g12,
      if_neg g13, if_neg g14, if_neg g15, if_neg g16, if_neg g17, if_neg g18,
      if_neg g19, if_neg g20]

theorem parse_ignore_pair (env : Env) (s : PState)
    (l1 l2 : List (OctValue × OctValue)) (p : OctValue × OctValue)
    (hstep : ∀ t : PState, parseStep env t p = .ok t) :
    parsePairs env s (l1 ++ p :: l2) = parsePairs env s (l1 ++ l2) := by
  rw [parsePairs_append, parsePairs_append]
  cases parsePairs env s l1 with
  | ok s' =>
    show parsePairs env s' (p :: l2) = parsePairs env s' l2
    rw [parsePairs, hstep s']
  | err e => rfl
  | early o0 o1 => rfl

/-- C8 counterexample: a pair with an unrecognized non-empty name but an
empty value is not silently ignored: the empty-value check raises an error. -/
theorem C8_counterexample :
    runOllama envA "up" [.str "foo", .str ""] =
      (.octError "__ollama__: input arguments cannot be empty.", []) := by
  rfl

/-- C8 (amended): a Name-Value pair whose name is a non-empty character
vector not among the recognized parameter names, and whose value is
non-empty, is silently ignored: removing the pair from the argument list
leaves the outcome and the issued library calls unchanged. -/
theorem C8_unrecognized_ignored_amended (env : Env) (url0 : String)
    (l1 l2 : List (OctValue × OctValue)) (p : OctValue × OctValue)
    (hn : p.1.isString = true) (hne : p.1.isempty = false)
    (hve : p.2.isempty = false) (hr : p.1.strVal ∉ recognizedNames) :
    runOllama env url0 (flattenPairs (l1 ++ p :: l2)) =
      runOllama env url0 (flattenPairs (l1 ++ l2)) := by
  rw [runOllama_flatten, runOllama_flatten,
      parse_ignore_pair env _ l1 l2 p
        (fun t => step_unrecognized env t p hn hne hve hr)]

/-- C8 witness: the amended theorem applied to a concrete unrecognized pair
inserted before a version query. -/
theorem C8_witness :
    runOllama envA "up"
      (flattenPairs [(.str "foo", .str "bar"), (.str "Query", .str "version")]) =
    runOllama envA "up" (flattenPairs [(.str "Query", .str "version")]) :=
  C8_unrecognized_ignored_amended envA "up" [] [(.str "Query", .str "version")]
    (.str "foo", .str "bar") rfl rfl rfl (by decide)

/-- The lifecycle request flag corresponding to a lifecycle parameter name. -/
def lcFlagOf (nm : String) (s : PState) : Bool :=
  if nm = "loadModel" then s.do_loadModel
  else if nm = "pullModel" then s.do_pullModel
  else if nm = "copyModel" then s.do_copyModel
  else if nm = "deleteModel" then s.do_deleteModel
  else if nm = "unloadModel" then s.do_unloadModel
  else false

theorem parse_lc_flag (env : Env) (s0 : PState) (ps : List (OctValue × OctValue))
    (s' : PState) (h : parsePairs env s0 ps = .ok s')
    (p : OctValue × OctValue) (hp : p ∈ ps) (hstr : p.1.isString = true)
    (hmem : p.1.strVal ∈ lifecycleNames) :
    lcFlagOf p.1.strVal s' = true := by
  have hchar := parse_flags env s0 ps s' h
  have hload := congrArg DFlags.load hchar
  have hpull := congrArg DFlags.pull hchar
  have hcopy := congrArg DFlags.copy hchar
  have hdel := congrArg DFlags.del hchar
  have hunl := congrArg DFlags.unload hchar
  simp only [dflags, dfOr] at hload hpull hcopy hdel hunl
  simp only [lifecycleNames, List.mem_cons, List.not_mem_nil, or_false] at hmem
  rcases hmem with h1 | h1 | h1 | h1 | h1
  · have ht := trigAll_component_true ps p hp DFlags.load
      (by simp [trig, hstr, h1]) (fun a b => rfl)
    simp [lcFlagOf, h1, hload, ht]
  · have ht := trigAll_component_true ps p hp DFlags.pull
      (by simp [trig, hstr, h1]) (fun a b => rfl)
    simp [lcFlagOf, h1, hpull, ht]
  · have ht := trigAll_component_true ps p hp DFlags.copy
      (by simp [trig, hstr, h1]) (fun a b => rfl)
    simp [lcFlagOf, h1, hcopy, ht]
  · have ht := trigAll_component_true ps p hp DFlags.del
      (by simp [trig, hstr, h1]) (fun a b => rfl)
    simp [lcFlagOf, h1, hdel, ht]
  · have ht := trigAll_component_true ps p hp DFlags.unload
      (by simp [trig, hstr, h1]) (fun a b => rfl)
    simp [lcFlagOf, h1, hunl, ht]

theorem parse_two_lifecycle_not_ok (env : Env) (s0 : PState) (h0 : lcExcl s0)
    (ps : List (OctValue × OctValue)) (p1 p2 : OctValue × OctValue)
    (hp1 : p1 ∈ ps) (hp2 : p2 ∈ ps)
    (hs1 : p1.1.isString = true) (hs2 : p2.1.isString = true)
    (hm1 : p1.1.strVal ∈ lifecycleNames) (hm2 : p2.1.strVal ∈ lifecycleNames)
    (hne : p1.1.strVal ≠ p2.1.strVal) (s' : PState) :
    parsePairs env s0 ps ≠ .ok s' := by
  intro h
  have f1 := parse_lc_flag env s0 ps s' h p1 hp1 hs1 hm1
  have f2 := parse_lc_flag env s0 ps s' h p2 hp2 hs2 hm2
  have hex := parse_lcExcl env s0 ps s' h h0
  simp only [lifecycleNames, List.mem_cons, List.not_mem_nil, or_false] at hm1 hm2
  rcases hm1 with h1 | h1 | h1 | h1 | h1 <;> rcases hm2 with h2 | h2 | h2 | h2 | h2 <;>
    rw [h1, h2] at hne <;> rw [h1] at f1 <;> rw [h2] at f2 <;>
    simp only [lcFlagOf] at f1 f2 <;> simp_all [lcExcl]

/-- C2 counterexample: an argument list specifying two distinct lifecycle
parameters with accepted value types does not raise an error when a
`serverURL` pair between them names a non-running server: `__ollama__`
returns (false, true) before reaching the second lifecycle pair. -/
theorem C2_counterexample :
    runOllama envA "up"
      [.str "loadModel", .str "a", .str "serverURL", .str "down",
       .str "pullModel", .str "b"] = (.ret (.b false) true, []) := by
  rfl

/-- C2 (amended): an even-length argument list that specifies two distinct
parameters among loadModel, pullModel, copyModel, deleteModel and
unloadModel makes `__ollama__` raise an error with no external call issued,
unless an earlier `serverURL` pair names a non-running server, in which case
`__ollama__` returns early with (false, true) and still performs no
model-lifecycle operation. -/
theorem C2_lifecycle_exclusion_amended (env : Env) (url0 : String)
    (args : List OctValue) (ps : List (OctValue × OctValue))
    (hc : chunkPairs args = some ps)
    (p1 p2 : OctValue × OctValue) (hp1 : p1 ∈ ps) (hp2 : p2 ∈ ps)
    (hs1 : p1.1.isString = true) (hs2 : p2.1.isString = true)
    (hm1 : p1.1.strVal ∈ lifecycleNames) (hm2 : p2.1.strVal ∈ lifecycleNames)
    (hne : p1.1.strVal ≠ p2.1.strVal)
    (hsrv : ∀ q ∈ ps, q.1.strVal = "serverURL" → q.2.isString = true →
            env.is_running q.2.strVal = true) :
    ∃ e, runOllama env url0 args = (.octError e, []) := by
  rw [runOllama_parse env url0 args ps hc]
  cases hres : parsePairs env (initState url0 (env.is_running url0)) ps with
  | ok s' =>
    exact absurd hres
      (parse_two_lifecycle_not_ok env _ (by simp [initState, lcExcl]) ps p1 p2
        hp1 hp2 hs1 hs2 hm1 hm2 hne s')
  | err e => exact ⟨e, rfl⟩
  | early o0 o1 =>
    exact absurd hres (parse_not_early env _ ps hsrv o0 o1)

/-- C2 witness: the amended theorem applied to a concrete list specifying
both loadModel and pullModel. -/
theorem C2_witness :
    ∃ e, runOllama envA "up"
      [.str "loadModel", .str "a", .str "pullModel", .str "b"] =
      (.octError e, []) :=
  C2_lifecycle_exclusion_amended envA "up"
    [.str "loadModel", .str "a", .str "pullModel", .str "b"]
    [(.str "loadModel", .str "a"), (.str "pullModel", .str "b")] rfl
    (.str "loadModel", .str "a") (.str "pullModel", .str "b")
    (List.mem_cons_self _ _)
    (List.mem_cons_of_mem _ (List.mem_cons_self _ _))
    rfl rfl (by decide) (by decide) (by decide)
    (fun q hq h1 _ => by
      rcases List.mem_cons.mp hq with h | h
      · rw [h] at h1; exact absurd h1 (by decide)
      rcases List.mem_cons.mp h with h2 | h2
      · rw [h2] at h1; exact absurd h1 (by decide)
      · exact absurd h2 (List.not_mem_nil q))

theorem parse_prompt_message_not_ok (env : Env) (s0 : PState) (h0 : pmExcl s0)
    (ps : List (OctValue × OctValue)) (p1 p2 : OctValue × OctValue)
    (hp1 : p1 ∈ ps) (hp2 : p2 ∈ ps)
    (hs1 : p1.1.isString = true) (hs2 : p2.1.isString = true)
    (hn1 : p1.1.strVal = "prompt") (hn2 : p2.1.strVal = "message")
    (s' : PState) : parsePairs env s0 ps ≠ .ok s' := by
  intro h
  have hchar := parse_flags env s0 ps s' h
  have hhp := congrArg DFlags.hp hchar
  have hhm := congrArg DFlags.hm hchar
  have t1 := trigAll_component_true ps p1 hp1 DFlags.hp
    (by simp [trig, hs1, hn1]) (fun a b => rfl)
  have t2 := trigAll_component_true ps p2 hp2 DFlags.hm
    (by simp [trig, hs2, hn2]) (fun a b => rfl)
  have hpm := parse_pmExcl env s0 ps s' h h0
  simp only [dflags, dfOr] at hhp hhm
  simp_all [pmExcl]

/-- C4: at the inference stage a non-empty model is required (else error);
with a prompt the generate entry point is called, with messages the chat
entry point; a successful parse never leaves both prompt and messages set
(supplying both errors during parsing, absent an earlier serverURL early
return); and with neither, an error is raised. -/
theorem C4_inference_requirements :
    (∀ (env : Env) (r0 : Bool) (s : PState), selectedOp s = .inference →
       s.model = "" →
       dispatch env r0 s =
         (.octError "__ollama: model parameter is required.", [])) ∧
    (∀ (env : Env) (r0 : Bool) (s : PState), selectedOp s = .inference →
       s.model ≠ "" → s.has_prompt = true →
       (dispatch env r0 s).2 = [.generate s.model s.prompt]) ∧
    (∀ (env : Env) (r0 : Bool) (s : PState), selectedOp s = .inference →
       s.model ≠ "" → s.has_prompt = false → s.has_messages = true →
       (dispatch env r0 s).2 = [.chat s.model]) ∧
    (∀ (env : Env) (r0 : Bool) (s : PState), selectedOp s = .inference →
       s.model ≠ "" → s.has_prompt = false → s.has_messages = false →
       dispatch env r0 s =
         (.octError "__ollama: either prompt or messages parameter is required.",
          [])) ∧
    (∀ (env : Env) (s0 : PState) (ps : List (OctValue × OctValue)) (s' : PState),
       pmExcl s0 → parsePairs env s0 ps = .ok s' →
       ¬(s'.has_prompt = true ∧ s'.has_messages = true)) ∧
    (∀ (env : Env) (url0 : String) (args : List OctValue)
       (ps : List (OctValue × OctValue)) (p1 p2 : OctValue × OctValue),
       chunkPairs args = some ps → p1 ∈ ps → p2 ∈ ps →
       p1.1.isString = true → p2.1.isString = true →
       p1.1.strVal = "prompt" → p2.1.strVal = "message" →
       (∀ q ∈ ps, q.1.strVal = "serverURL" → q.2.isString = true →
          env.is_running q.2.strVal = true) →
       ∃ e, runOllama env url0 args = (.octError e, [])) := by
  refine ⟨?_, ?_, ?_, ?_, ?_, ?_⟩
  · intro env r0 s hsel hm
    rw [dispatch_eq_execOp, hsel]; simp [execOp, hm]
  · intro env r0 s hsel hm hp
    rw [dispatch_eq_execOp, hsel]
    cases hx : env.generate s.model s.prompt s.think s.sysmsg s.opts s.imgs <;>
      simp [execOp, hm, hp, hx]
  · intro env r0 s hsel hm hp hmm
    rw [dispatch_eq_execOp, hsel]
    cases hx : env.chat s.model s.msgs s.think s.sysmsg s.opts <;>
      simp [execOp, hm, hp, hmm, hx]
  · intro env r0 s hsel hm hp hmm
    rw [dispatch_eq_execOp, hsel]; simp [execOp, hm, hp, hmm]
  · intro env s0 ps s' h0 h hboth
    have hpm := parse_pmExcl env s0 ps s' h h0
    simp [pmExcl, hboth.1, hboth.2] at hpm
  · intro env url0 args ps p1 p2 hc hp1 hp2 hs1 hs2 hn1 hn2 hsrv
    rw [runOllama_parse env url0 args ps hc]
    cases hres : parsePairs env (initState url0 (env.is_running url0)) ps with
    | ok s' =>
      exact absurd hres
        (parse_prompt_message_not_ok env _ (by simp [initState, pmExcl]) ps p1 p2
          hp1 hp2 hs1 hs2 hn1 hn2 s')
    | err e => exact ⟨e, rfl⟩
    | early o0 o1 =>
      exact absurd hres (parse_not_early env _ ps hsrv o0 o1)

/-- C4 witness: the theorem applied to a concrete prompt-bearing state and
to a state with no model. -/
theorem C4_witness :
    (dispatch envA true
      { (initState "up" true) with model := "m", prompt := "hi", has_prompt := true }).2 =
      [.generate "m" "hi"] ∧
    dispatch envA true (initState "up" true) =
      (.octError "__ollama: model parameter is required.", []) :=
  ⟨C4_inference_requirements.2.1 envA true
    { (initState "up" true) with model := "m", prompt := "hi", has_prompt := true }
    rfl (by decide) rfl,
   C4_inference_requirements.1 envA true (initState "up" true) rfl rfl⟩

/-- C5 counterexample: an argument list with a non-character-vector name in
an even position raises no error when an earlier serverURL pair names a
non-running server: `__ollama__` returns (false, true) normally. -/
theorem C5_counterexample :
    runOllama envA "up" [.str "serverURL", .str "down", .dbl 42, .str "x"] =
      (.ret (.b false) true, []) := by
  rfl

/-- C5 (amended): an odd-length argument list always raises the Name-Value
pairing error; a list containing a pair with an empty name, an empty value,
or a non-character-vector name raises an error with no external call issued,
unless an earlier serverURL pair names a non-running server, in which case
`__ollama__` returns early with (false, true). -/
theorem C5_argument_validation_amended :
    (∀ (env : Env) (url0 : String) (args : List OctValue),
       chunkPairs args = none →
       runOllama env url0 args =
         (.octError "__ollama__: input arguments must be in Name-Value pairs.",
          [])) ∧
    (∀ (env : Env) (url0 : String) (args : List OctValue)
       (ps : List (OctValue × OctValue)) (p : OctValue × OctValue),
       chunkPairs args = some ps → p ∈ ps →
       (p.1.isempty = true ∨ p.2.isempty = true ∨ p.1.isString = false) →
       (∀ q ∈ ps, q.1.strVal = "serverURL" → q.2.isString = true →
          env.is_running q.2.strVal = true) →
       ∃ e, runOllama env url0 args = (.octError e, [])) := by
  constructor
  · intro env url0 args hc
    unfold runOllama
    rw [hc]
  · intro env url0 args ps p hc hp hbad hsrv
    rw [runOllama_parse env url0 args ps hc]
    cases hres : parsePairs env (initState url0 (env.is_running url0)) ps with
    | ok s' =>
      obtain ⟨t, t', hstep⟩ := parse_ok_of_mem env _ ps s' hres p hp
      obtain ⟨w1, w2, w3⟩ := step_ok_wellformed env t p t' hstep
      rcases hbad with hb | hb | hb
      · exact absurd hb w1
      · exact absurd hb w2
      · rw [w3] at hb; exact Bool.noConfusion hb
    | err e => exact ⟨e, rfl⟩
    | early o0 o1 =>
      exact absurd hres (parse_not_early env _ ps hsrv o0 o1)

/-- C5 witness: the amended theorem applied to an odd-length list and to a
list with a numeric name. -/
theorem C5_witness :
    runOllama envA "up" [.str "model"] =
      (.octError "__ollama__: input arguments must be in Name-Value pairs.",
       []) ∧
    ∃ e, runOllama envA "up" [.dbl 1, .str "x"] = (.octError e, []) :=
  ⟨C5_argument_validation_amended.1 envA "up" [.str "model"] rfl,
   C5_argument_validation_amended.2 envA "up" [.dbl 1, .str "x"]
    [(.dbl 1, .str "x")] (.dbl 1, .str "x") rfl (List.mem_cons_self _ _)
    (Or.inr (Or.inr rfl))
    (fun q hq h1 _ => by
      rcases List.mem_cons.mp hq with h | h
      · rw [h] at h1; exact absurd h1 (by decide)
      · exact absurd h (List.not_mem_nil q))⟩

/-- The per-parameter value type constraints of the parse loop, as a
conjunction of implications over the pair's name. -/
def c6TypeOk (p : OctValue × OctValue) : Prop :=
  (p.1.strVal = "model" → p.2.isString = true) ∧
  (p.1.strVal = "prompt" → p.2.isString = true) ∧
  (p.1.strVal = "serverURL" → p.2.isString = true) ∧
  (p.1.strVal = "Query" → p.2.isString = true) ∧
  (p.1.strVal = "loadModel" → p.2.isString = true) ∧
  (p.1.strVal = "pullModel" → p.2.isString = true) ∧
  (p.1.strVal = "deleteModel" → p.2.isString = true) ∧
  (p.1.strVal = "unloadModel" → p.2.isString = true) ∧
  (p.1.strVal = "modelInfo" → p.2.isString = true) ∧
  (p.1.strVal = "systemMessage" → p.2.isString = true) ∧
  (p.1.strVal = "think" → p.2.isString = true) ∧
  (p.1.strVal = "readTimeout" → p.2.isScalarType = true ∧ p.2.isDoubleType = true) ∧
  (p.1.strVal = "writeTimeout" → p.2.isScalarType = true ∧ p.2.isDoubleType = true) ∧
  (p.1.strVal = "copyModel" → p.2.iscellstr = true ∧ p.2.numelV = 2) ∧
  (p.1.strVal = "options" → p.2.isstruct = true ∧ p.2.isScalarType = true) ∧
  (p.1.strVal = "message" → p.2.iscell = true ∧ cellColsN p.2.cellRows = 3)

theorem step_ok_c6TypeOk (env : Env) (s : PState) (p : OctValue × OctValue)
    (s' : PState) (h : parseStep env s p = .ok s') : c6TypeOk p :=
  (step_props env s p s' h).2.2

/-- C6 counterexample: a mistyped value for a recognized parameter raises no
error when an earlier serverURL pair names a non-running server:
`__ollama__` returns (false, true) without reaching the bad pair. -/
theorem C6_counterexample :
    runOllama envA "up" [.str "serverURL", .str "down", .str "model", .dbl 5] =
      (.ret (.b false) true, []) := by
  rfl

/-- C6 (amended): a pair whose name is one of the recognized parameters
listed by the claim and whose value violates that parameter's type
constraint makes `__ollama__` raise an error with no external request
issued, unless an earlier serverURL pair names a non-running server, in
which case `__ollama__` returns early with (false, true) and still issues
no request. -/
theorem C6_value_type_checks_amended (env : Env) (url0 : String)
    (args : List OctValue) (ps : List (OctValue × OctValue))
    (p : OctValue × OctValue)
    (hc : chunkPairs args = some ps) (hp : p ∈ ps) (hbad : ¬ c6TypeOk p)
    (hsrv : ∀ q ∈ ps, q.1.strVal = "serverURL" → q.2.isString = true →
            env.is_running q.2.strVal = true) :
    ∃ e, runOllama env url0 args = (.octError e, []) := by
  rw [runOllama_parse env url0 args ps hc]
  cases hres : parsePairs env (initState url0 (env.is_running url0)) ps with
  | ok s' =>
    obtain ⟨t, t', hstep⟩ := parse_ok_of_mem env _ ps s' hres p hp
    exact absurd (step_ok_c6TypeOk env t p t' hstep) hbad
  | err e => exact ⟨e, rfl⟩
  | early o0 o1 =>
    exact absurd hres (parse_not_early env _ ps hsrv o0 o1)

/-- C6 witness: the amended theorem applied to a numeric `model` value. -/
theorem C6_witness :
    ∃ e, runOllama envA "up" [.str "model", .dbl 5] = (.octError e, []) :=
  C6_value_type_checks_amended envA "up" [.str "model", .dbl 5]
    [(.str "model", .dbl 5)] (.str "model", .dbl 5) rfl
    (List.mem_cons_self _ _) (fun h => absurd (h.1 rfl) (by decide))
    (fun q hq h1 _ => by
      rcases List.mem_cons.mp hq with h | h
      · rw [h] at h1; exact absurd h1 (by decide)
      · exact absurd h (List.not_mem_nil q))

end OllamaSpec

